import Mathlib

/-!
# AudioMedic frontend: subscription gate and upload pipeline

A shallow embedding of the client-side logic of `frontend/src/pages/Dashboard.js`,
`frontend/src/pages/AdminPanel.js`, `frontend/src/pages/Recorder.js`,
`frontend/src/pages/TranscriptionDetail.js` and `frontend/src/App.js`.

Conventions of the embedding.

* A JavaScript `Date` is its time value: an integer number of milliseconds. The
  instant read by `new Date()` is an explicit argument `now`.
* `userInfo?.field` on a possibly missing object or field is an `Option`.
* An asynchronous handler is a function of the component state and of the outcome
  of the remote call it awaits; it returns the state after the handler has
  completed together with the list of effects it performed, in order. A handler that
  writes nothing before its `await` is applied to the state in which the awaited call
  settles; the runs of the recorder keep the click and the settlement apart.
* A browser object that the component creates (a `MediaRecorder`, an interval) is kept
  in the state under a number that stands for its identity; a ref holds that number.
-/

namespace AudioMedic

/-! ## Data model -/

/-- The account object held in `userInfo` (`GET /auth/me`). The end date is the time
value, in milliseconds, of `new Date(userInfo.subscription_end_date)`; a field is `none`
when it is null, missing or empty, which is when JavaScript treats it as falsy. -/
structure UserInfo where
  subscription_status : Option String := none
  subscription_end_date : Option Int := none
  is_admin : Bool := false
deriving DecidableEq

/-- The four sections of `structured_notes`. -/
structure StructuredNotes where
  anamnese : String
  exame_fisico : String
  hipotese_diagnostica : String
  conduta : String
deriving DecidableEq

/-- A transcription record as returned by the API; a field the object does not carry
is `none`. -/
structure Transcription where
  id : Option String := none
  title : Option String := none
  status : Option String := none
  transcript_text : Option String := none
  structured_notes : Option StructuredNotes := none
  created_at : Option String := none
deriving DecidableEq

/-- A `Blob`: its parts in order and its content type. -/
structure Blob where
  parts : List String
  type : String
deriving DecidableEq

/-- The rejection value of a failed axios call: `error.response?.status` and
`error.response?.data?.detail`. -/
structure AxiosError where
  status : Option Nat := none
  detail : Option String := none
deriving DecidableEq

/-- A `DOMException` thrown by `navigator.mediaDevices.getUserMedia`: its `name`. -/
structure DOMException where
  name : String
deriving DecidableEq

/-- A track of a `MediaStream`; `live` is `readyState === 'live'`. -/
structure MediaStreamTrack where
  live : Bool := true
deriving DecidableEq

/-- A `MediaStream`: the list returned by `getTracks()`. -/
structure MediaStream where
  tracks : List MediaStreamTrack
deriving DecidableEq

/-- A `MediaRecorder` object: `id` stands for the identity of the object, `stream` is the
stream its `onstop` handler closes over, `recording` is `state === 'recording'`. -/
structure MediaRecorder where
  id : Nat
  stream : MediaStream
  recording : Bool
deriving DecidableEq

/-- The effects a handler can perform. -/
inductive Effect where
  | toastError (message : String)
  | toastSuccess (message : String)
  | navigate (path : String)
  | postUpload (file : Blob) (filename : String) (title : String)
  | getUserMedia
  | consoleError (name : String)
  | postStructure (transcription_id : String)
  | confirm (message : String)
  | getTranscriptions
  | getTranscription (id : String)
  | deleteTranscription (id : String)
  | setLocationHref (url : String)
deriving DecidableEq

/-! ## Dashboard.js: day arithmetic, banner and gate -/

/-- `Math.ceil(x / d)` for an integer `x` and a positive integer `d`, computed in
integers. For `d = 86400000` and `|x| ≤ 2^53` the floating-point quotient rounds to the
same integer. -/
def mathCeilDiv (x d : Int) : Int := -((-x) / d)

/-- The object returned by `getSubscriptionBanner`; a field that the returned object
literal does not set is `none`. (`show` is reserved in Lean, hence `show_`.) -/
structure Banner where
  show_ : Bool
  type : Option String := none
  icon : Option String := none
  message : Option String := none
  bgColor : Option String := none
  borderColor : Option String := none
  textColor : Option String := none
deriving DecidableEq

/-- `userInfo?.subscription_status`. -/
def subscriptionStatus (userInfo : Option UserInfo) : Option String :=
  userInfo.bind fun u => u.subscription_status

/-- `Dashboard.getDaysUntilExpiry`. -/
def getDaysUntilExpiry (userInfo : Option UserInfo) (now : Int) : Int :=
  match userInfo.bind fun u => u.subscription_end_date with
  | none => 0
  | some end_ => mathCeilDiv (end_ - now) (1000 * 60 * 60 * 24)

/-- `AdminPanel.getDaysRemaining`. -/
def getDaysRemaining (endDate : Option Int) (now : Int) : Int :=
  match endDate with
  | none => 0
  | some end_ =>
    let diff := mathCeilDiv (end_ - now) (1000 * 60 * 60 * 24)
    diff

/-- `Dashboard.getSubscriptionBanner`. -/
def getSubscriptionBanner (userInfo : Option UserInfo) (now : Int) : Banner :=
  let status := subscriptionStatus userInfo
  let days := getDaysUntilExpiry userInfo now
  if status = some "expired" then
    { show_ := true
      type := some "danger"
      icon := some "AlertCircle"
      message := some "Assinatura expirada. Você está em modo leitura. Entre em contato com o administrador."
      bgColor := some "rgba(239, 68, 68, 0.1)"
      borderColor := some "#ef4444"
      textColor := some "#dc2626" }
  else if status = some "grace_period" then
    { show_ := true
      type := some "warning"
      icon := some "Clock"
      message := some ("Período de graça: " ++ toString days.natAbs
        ++ " dias restantes antes do modo leitura.")
      bgColor := some "rgba(245, 158, 11, 0.1)"
      borderColor := some "#f59e0b"
      textColor := some "#d97706" }
  else if status = some "active" ∧ days ≤ 7 ∧ days > 0 then
    { show_ := true
      type := some "info"
      icon := some "AlertCircle"
      message := some ("Sua assinatura vence em " ++ toString days ++ " dia"
        ++ (if days > 1 then "s" else "") ++ ".")
      bgColor := some "rgba(14, 165, 233, 0.1)"
      borderColor := some "#0ea5e9"
      textColor := some "#0284c7" }
  else
    { show_ := false }

/-- `Dashboard.canCreateNew`. -/
def canCreateNew (userInfo : Option UserInfo) : Bool :=
  subscriptionStatus userInfo = some "active" ∨ subscriptionStatus userInfo = some "grace_period"

/-- The part of the Dashboard component state its controls depend on. -/
structure DashboardState where
  userInfo : Option UserInfo
  loading : Bool := true
  transcriptions : List Transcription := []
deriving DecidableEq

/-- The two Dashboard controls that lead to the recorder. -/
inductive DashboardControl where
  | newRecordingBtn
  | emptyStateRecordBtn
deriving DecidableEq

/-- The `onClick` handler of `new-recording-btn`. -/
def newRecordingBtn_onClick (d : DashboardState) : List Effect :=
  if ¬ canCreateNew d.userInfo then
    [.toastError "Assinatura expirada. Renove para criar novas transcrições."]
  else
    [.navigate "/recorder"]

/-- The `onClick` handler of `empty-state-record-btn`. -/
def emptyStateRecordBtn_onClick (_d : DashboardState) : List Effect :=
  [.navigate "/recorder"]

/-- Whether a control is rendered and enabled: `new-recording-btn` is always rendered
and carries `disabled={!canCreateNew}`; `empty-state-record-btn` is rendered when the
list has loaded and is empty. -/
def controlEnabled (d : DashboardState) : DashboardControl → Bool
  | .newRecordingBtn => canCreateNew d.userInfo
  | .emptyStateRecordBtn => !d.loading && d.transcriptions.length == 0

/-- A click on a Dashboard control: the handler runs when the control is enabled. -/
def Dashboard_click (d : DashboardState) (c : DashboardControl) : List Effect :=
  if controlEnabled d c then
    match c with
    | .newRecordingBtn => newRecordingBtn_onClick d
    | .emptyStateRecordBtn => emptyStateRecordBtn_onClick d
  else []

/-! ## Recorder.js: upload -/

/-- The state of a Recorder component, with its initial values: the `useState` cells,
the three refs, and the browser objects the component has created. `recorders` are the
`MediaRecorder` objects created so far and `intervals` the ids of the intervals that are
running; `mediaRecorderRef` and `timerRef` hold the id of an object. `mounted` is false
once the component has been unmounted. -/
structure RecorderState where
  isRecording : Bool := false
  isPaused : Bool := false
  recordingTime : Nat := 0
  audioBlob : Option Blob := none
  uploading : Bool := false
  title : String := ""
  mediaRecorderRef : Option Nat := none
  audioChunksRef : List String := []
  timerRef : Option Nat := none
  recorders : List MediaRecorder := []
  nextRecorderId : Nat := 0
  intervals : List Nat := []
  nextTimerId : Nat := 1
  mounted : Bool := true
deriving DecidableEq

/-- The body of a successful upload response: `response.data.id`. -/
structure UploadResponse where
  id : String
deriving DecidableEq

/-- The value of `error.response?.data?.detail || fallback`. -/
def detailOr (error : AxiosError) (fallback : String) : String :=
  match error.detail with
  | some d => if d = "" then fallback else d
  | none => fallback

/-- `Recorder.uploadAudio`. `today` is `new Date().toLocaleDateString('pt-BR')` and
`remote` the outcome of the awaited `axios.post`. -/
def uploadAudio (s : RecorderState) (today : String)
    (remote : Except AxiosError UploadResponse) : RecorderState × List Effect :=
  match s.audioBlob with
  | none => (s, [.toastError "Nenhum áudio gravado"])
  | some audioBlob =>
    let post := Effect.postUpload audioBlob "recording.webm"
      (if s.title = "" then "Consulta " ++ today else s.title)
    match remote with
    | .ok response =>
      ({ s with uploading := false },
        [post, .toastSuccess "Transcrição concluída!", .navigate ("/transcription/" ++ response.id)])
    | .error error =>
      ({ s with uploading := false },
        [post, .toastError (detailOr error "Erro ao fazer upload")])

/-- The number of requests sent to the transcription service. -/
def transcriptionCalls (effects : List Effect) : Nat :=
  effects.countP fun e => match e with
    | .postUpload _ _ _ => true
    | _ => false

/-- The session a Dashboard control starts: the click, and, when it navigates to the
recorder, the upload of the recording taken there. -/
def submitFromDashboard (d : DashboardState) (c : DashboardControl) (r : RecorderState)
    (today : String) (remote : Except AxiosError UploadResponse) : List Effect :=
  let clicked := Dashboard_click d c
  if Effect.navigate "/recorder" ∈ clicked then
    clicked ++ (uploadAudio r today remote).2
  else clicked

/-- The render condition of `upload-audio-btn` and `reset-recording-btn`:
`audioBlob && !uploading`. -/
def uploadControlOffered (s : RecorderState) : Bool :=
  s.audioBlob.isSome && !s.uploading

/-- The titles sent to the transcription service, in order. -/
def sentTitles (effects : List Effect) : List String :=
  effects.filterMap fun e => match e with
    | .postUpload _ _ title => some title
    | _ => none

/-! ## Recorder.js: capture -/

/-- `recorder.stop()`: the recorder becomes inactive. -/
def MediaRecorder.stop (r : MediaRecorder) : MediaRecorder :=
  { r with recording := false }

/-- `stream.getTracks().forEach(track => track.stop())`. -/
def MediaStream.stopTracks (m : MediaStream) : MediaStream :=
  { tracks := m.tracks.map fun t => { t with live := false } }

/-- `setInterval(callback, 1000)`: the id of the new interval and the running intervals. -/
def setInterval (s : RecorderState) : Nat × List Nat :=
  (s.nextTimerId, s.intervals ++ [s.nextTimerId])

/-- `clearInterval(id)` on the running intervals. -/
def clearInterval (intervals : List Nat) (id : Option Nat) : List Nat :=
  match id with
  | some t => intervals.filter fun i => i ≠ t
  | none => intervals

/-- `Recorder.startRecording`. `acquire` is the outcome of the awaited `getUserMedia`;
the `MediaRecorder` constructor and `start()` are taken not to throw. -/
def startRecording (s : RecorderState) (acquire : Except DOMException MediaStream) :
    RecorderState × List Effect :=
  match acquire with
  | .ok stream =>
    ({ s with
        recorders := s.recorders ++ [{ id := s.nextRecorderId, stream := stream, recording := true }]
        nextRecorderId := s.nextRecorderId + 1
        mediaRecorderRef := some s.nextRecorderId
        audioChunksRef := []
        isRecording := true
        isPaused := false
        timerRef := some (setInterval s).1
        intervals := (setInterval s).2
        nextTimerId := s.nextTimerId + 1 },
      [.getUserMedia, .toastSuccess "Gravação iniciada"])
  | .error error =>
    (s, [.getUserMedia, .toastError "Erro ao acessar microfone. Verifique as permissões.",
      .consoleError error.name])

/-- The `ondataavailable` handler installed by `startRecording`:
`audioChunksRef.current.push(event.data)`. -/
def ondataavailable (s : RecorderState) (data : String) : RecorderState :=
  { s with audioChunksRef := s.audioChunksRef ++ [data] }

/-- The `onstop` handler installed by `startRecording` on the recorder `rid`: it builds
the blob from the chunk buffer and stops the tracks of the stream of that recorder. -/
def onstop (s : RecorderState) (rid : Nat) : RecorderState :=
  { s with
      audioBlob := some { parts := s.audioChunksRef, type := "audio/webm" }
      recorders := s.recorders.map fun r =>
        if r.id = rid then { r with stream := r.stream.stopTracks } else r }

/-- The callback of the interval `id`, run once a second while the interval is running:
`setRecordingTime(prev => prev + 1)`. -/
def intervalTick (s : RecorderState) (id : Nat) : RecorderState :=
  if id ∈ s.intervals then { s with recordingTime := s.recordingTime + 1 } else s

/-- `Recorder.stopRecording`. -/
def stopRecording (s : RecorderState) : RecorderState × List Effect :=
  match s.mediaRecorderRef with
  | some rid =>
    if s.isRecording then
      ({ s with
          recorders := s.recorders.map fun r => if r.id = rid then r.stop else r
          isRecording := false
          intervals := clearInterval s.intervals s.timerRef },
        [.toastSuccess "Gravação finalizada"])
    else (s, [])
  | none => (s, [])

/-- `Recorder.resetRecording`. -/
def resetRecording (s : RecorderState) : RecorderState :=
  { s with audioBlob := none, recordingTime := 0, title := "" }

/-- The cleanup of the `useEffect` of the component, run when it is unmounted:
`if (timerRef.current) clearInterval(timerRef.current)`. -/
def unmount (s : RecorderState) : RecorderState :=
  { s with
      intervals := match s.timerRef with
        | some t => if t ≠ 0 then clearInterval s.intervals (some t) else s.intervals
        | none => s.intervals
      mounted := false }

/-- The render condition of `start-recording-btn`: `!isRecording && !audioBlob`. -/
def startControlOffered (s : RecorderState) : Bool :=
  !s.isRecording && s.audioBlob.isNone

/-- The session is recording: the component is mounted and `isRecording` is set. -/
def sessionRecording (s : RecorderState) : Bool :=
  s.mounted && s.isRecording

/-- The number of microphone tracks acquired by the session that are still live. -/
def liveTracks (s : RecorderState) : Nat :=
  (s.recorders.map fun r => r.stream.tracks.countP fun t => t.live).sum

/-- The number of requests for the microphone. -/
def acquisitions (effects : List Effect) : Nat :=
  effects.count .getUserMedia

/-- `str.padStart(targetLength, c)` for a pad string of one character. -/
def padStart (str : String) (targetLength : Nat) (c : Char) : String :=
  String.mk (List.replicate (targetLength - str.length) c) ++ str

/-- `Recorder.formatTime` on a non-negative integer number of seconds (within the range
in which JavaScript prints an integer in plain decimal). -/
def formatTime (seconds : Nat) : String :=
  let mins := seconds / 60
  let secs := seconds % 60
  padStart (toString mins) 2 '0' ++ ":" ++ padStart (toString secs) 2 '0'

/-- The number written by a string of decimal digits. -/
def readDecimal (str : String) : Nat :=
  str.data.foldl (fun acc c => 10 * acc + (c.toNat - '0'.toNat)) 0

/-- Reading a displayed time back into seconds: the number before the first colon counts
minutes and the number after it counts seconds. -/
def readTime (str : String) : Nat :=
  readDecimal (String.mk (str.data.takeWhile fun c => c ≠ ':')) * 60
    + readDecimal (String.mk ((str.data.dropWhile fun c => c ≠ ':').drop 1))

/-- What can happen to a mounted Recorder: a click on one of its controls, the
settlement of a pending `getUserMedia` call, a tick of an interval, a chunk delivered by a
recorder, or the stop event of a recorder. -/
inductive RecorderAction where
  | clickStart
  | acquired (acquire : Except DOMException MediaStream)
  | tick (id : Nat)
  | data (chunk : String)
  | clickStop
  | stopEvent (rid : Nat)
  | clickReset
  | clickUpload (today : String) (remote : Except AxiosError UploadResponse)

/-- A Recorder together with what the browser still has to deliver. `pendingStop` lists
the recorders on which `stop()` has been called and whose `onstop` handler has not run yet.
`pendingStart` counts the calls of `startRecording` that are suspended at
`await getUserMedia`. `overlapped` is a history variable: it is set once a call of
`startRecording` has resumed on a session that was recording. -/
structure RecorderRun where
  state : RecorderState := {}
  pendingStop : List Nat := []
  pendingStart : Nat := 0
  overlapped : Bool := false
deriving DecidableEq

/-- One action on a run. A click runs the handler when the control is rendered
(`start-recording-btn` when `!isRecording && !audioBlob`, `stop-recording-btn` when
`isRecording`, the upload and reset buttons when `audioBlob && !uploading`); the stop
event of a recorder is delivered when it is pending.

A click on `start-recording-btn` calls `startRecording`, which writes nothing before
`await getUserMedia`: the state is unchanged and the call is pending. When a pending call
settles, the rest of `startRecording` runs on the state of that moment. -/
def RecorderRun.step (r : RecorderRun) : RecorderAction → RecorderRun
  | .clickStart =>
    if startControlOffered r.state then { r with pendingStart := r.pendingStart + 1 } else r
  | .acquired acquire =>
    if 0 < r.pendingStart then
      { r with
          state := (startRecording r.state acquire).1
          pendingStart := r.pendingStart - 1
          overlapped := r.overlapped || r.state.isRecording }
    else r
  | .tick id => { r with state := intervalTick r.state id }
  | .data chunk => { r with state := ondataavailable r.state chunk }
  | .clickStop =>
    if r.state.isRecording then
      { r with
          state := (stopRecording r.state).1
          pendingStop := match r.state.mediaRecorderRef with
            | some rid => r.pendingStop ++ [rid]
            | none => r.pendingStop }
    else r
  | .stopEvent rid =>
    if rid ∈ r.pendingStop then
      { r with state := onstop r.state rid, pendingStop := r.pendingStop.erase rid }
    else r
  | .clickReset =>
    if uploadControlOffered r.state then { r with state := resetRecording r.state } else r
  | .clickUpload today remote =>
    if uploadControlOffered r.state then
      { r with state := (uploadAudio r.state today remote).1 }
    else r

/-- The run reached from a freshly mounted Recorder by a list of actions. -/
def runRecorder (actions : List RecorderAction) : RecorderRun :=
  actions.foldl RecorderRun.step {}

/-- The invariant of the runs of a Recorder: no interval runs unless the session is
recording; while it is recording `mediaRecorderRef` is set and every running interval is the
one in `timerRef`; and when the start control is offered and no stop event is pending, the
elapsed counter is 0. -/
def RunInvariant (r : RecorderRun) : Prop :=
  (r.state.isRecording = false → r.state.intervals = [])
  ∧ (r.state.isRecording = true →
      r.state.mediaRecorderRef ≠ none
      ∧ ∃ t, r.state.timerRef = some t ∧ ∀ i ∈ r.state.intervals, i = t)
  ∧ (startControlOffered r.state = true → r.pendingStop = [] → r.state.recordingTime = 0)

/-- A complete take from the state `s₀`: a successful `startRecording` on `stream`, the
chunks `before` delivered while recording, `stopRecording`, the chunks `after` that the
recorder delivers once `stop()` has been called, and the stop event of the recorder. -/
def completeTake (s₀ : RecorderState) (stream : MediaStream) (before after : List String) :
    RecorderState :=
  let s₁ := (startRecording s₀ (.ok stream)).1
  let s₂ := (stopRecording (before.foldl ondataavailable s₁)).1
  onstop (after.foldl ondataavailable s₂) s₀.nextRecorderId

/-! ## TranscriptionDetail.js: structuring -/

/-- The state of a TranscriptionDetail component: the route parameter `id` and the
`useState` cells with their initial values. -/
structure DetailState where
  id : String
  transcription : Option Transcription := none
  loading : Bool := true
  structuring : Bool := false
deriving DecidableEq

/-- The body of a successful structuring response: `response.data.structured_notes`. -/
structure StructureResponse where
  structured_notes : Option StructuredNotes
deriving DecidableEq

/-- The updater passed to `setTranscription`:
`prev => ({...prev, structured_notes: notes, status: 'structured'})`.
Spreading `null` contributes no field. -/
def withStructuredNotes (prev : Option Transcription) (notes : Option StructuredNotes) :
    Transcription :=
  match prev with
  | some t => { t with structured_notes := notes, status := some "structured" }
  | none => { structured_notes := notes, status := some "structured" }

/-- `TranscriptionDetail.structureNotes`. `remote` is the outcome of the awaited
`axios.post`. -/
def structureNotes (s : DetailState) (remote : Except AxiosError StructureResponse) :
    DetailState × List Effect :=
  match remote with
  | .ok response =>
    ({ s with
        transcription := some (withStructuredNotes s.transcription response.structured_notes)
        structuring := false },
      [.postStructure s.id, .toastSuccess "Notas estruturadas com sucesso!"])
  | .error error =>
    ({ s with structuring := false },
      [.postStructure s.id, .toastError (detailOr error "Erro ao estruturar notas")])

/-- The invariant of a record: `structured_notes` is non-null only if the status is
`structured`. -/
def notesOnlyIfStructured (t : Transcription) : Bool :=
  t.structured_notes.isNone || t.status == some "structured"

/-- `TranscriptionDetail.loadTranscription`. `remote` is the outcome of the awaited
`axios.get`. -/
def loadTranscription (s : DetailState) (remote : Except AxiosError Transcription) :
    DetailState × List Effect :=
  match remote with
  | .ok data =>
    ({ s with transcription := some data, loading := false }, [.getTranscription s.id])
  | .error _ =>
    ({ s with loading := false },
      [.getTranscription s.id, .toastError "Erro ao carregar transcrição", .navigate "/dashboard"])

/-! ## Dashboard.js: list and deletion -/

/-- `Dashboard.loadTranscriptions`. `remote` is the outcome of the awaited `axios.get`. -/
def loadTranscriptions (d : DashboardState) (remote : Except AxiosError (List Transcription)) :
    DashboardState × List Effect :=
  match remote with
  | .ok data => ({ d with transcriptions := data, loading := false }, [.getTranscriptions])
  | .error _ =>
    ({ d with loading := false }, [.getTranscriptions, .toastError "Erro ao carregar transcrições"])

/-- `Dashboard.deleteTranscription`. `confirmed` is the answer to `window.confirm`,
`remote` the outcome of the awaited `axios.delete` and `reload` the outcome of the request
made by `loadTranscriptions` after a successful deletion. -/
def deleteTranscription (d : DashboardState) (id : String) (confirmed : Bool)
    (remote : Except AxiosError Unit) (reload : Except AxiosError (List Transcription)) :
    DashboardState × List Effect :=
  if ¬ confirmed then
    (d, [.confirm "Tem certeza que deseja excluir esta transcrição?"])
  else
    match remote with
    | .ok _ =>
      ((loadTranscriptions d reload).1,
        [.confirm "Tem certeza que deseja excluir esta transcrição?", .deleteTranscription id,
          .toastSuccess "Transcrição excluída"] ++ (loadTranscriptions d reload).2)
    | .error _ =>
      (d, [.confirm "Tem certeza que deseja excluir esta transcrição?", .deleteTranscription id,
        .toastError "Erro ao excluir transcrição"])

/-- The ids for which a delete request was sent, in order. -/
def deleteCalls (effects : List Effect) : List String :=
  effects.filterMap fun e => match e with
    | .deleteTranscription id => some id
    | _ => none

/-! ## App.js: the response interceptor -/

/-- `localStorage`: the stored items, as pairs of a key and a value. -/
structure LocalStorage where
  items : List (String × String)
deriving DecidableEq

/-- `localStorage.getItem(key)`. -/
def LocalStorage.getItem (storage : LocalStorage) (key : String) : Option String :=
  (storage.items.find? fun kv => kv.1 == key).map fun kv => kv.2

/-- `localStorage.removeItem(key)`. -/
def LocalStorage.removeItem (storage : LocalStorage) (key : String) : LocalStorage :=
  { items := storage.items.filter fun kv => kv.1 ≠ key }

/-- What the rejection handler of the response interceptor leaves behind: the storage,
the effects it performed, and the error of the rejected promise it returns. -/
structure Intercepted where
  storage : LocalStorage
  effects : List Effect
  rejected : AxiosError
deriving DecidableEq

/-- The rejection handler passed to `axios.interceptors.response.use`. -/
def responseInterceptor (storage : LocalStorage) (error : AxiosError) : Intercepted :=
  if error.status = some 401 then
    { storage := (storage.removeItem "token").removeItem "user"
      effects := [.setLocationHref "/auth"]
      rejected := error }
  else
    { storage := storage, effects := [], rejected := error }

/-- A failed upload as the application runs it: the response interceptor handles the
rejection first, and `uploadAudio` catches the error the interceptor propagates. -/
def failedUpload (storage : LocalStorage) (s : RecorderState) (today : String)
    (error : AxiosError) : Intercepted × RecorderState × List Effect :=
  (responseInterceptor storage error,
    uploadAudio s today (.error (responseInterceptor storage error).rejected))

/-- A failed structuring as the application runs it: the response interceptor handles
the rejection first, and `structureNotes` catches the error the interceptor propagates. -/
def failedStructuring (storage : LocalStorage) (s : DetailState) (error : AxiosError) :
    Intercepted × DetailState × List Effect :=
  (responseInterceptor storage error,
    structureNotes s (.error (responseInterceptor storage error).rejected))

/-! ## Concrete inputs used in the evaluations below -/

/-- A microphone stream with one live track. -/
def micStream : MediaStream := { tracks := [{ live := true }] }

/-- A session that has been recording for one second and has buffered one chunk. -/
def recordingSession : RecorderState :=
  ondataavailable (intervalTick (startRecording {} (.ok micStream)).1 1) "chunk-1"

/-- The recorder of the end-to-end scenario: a start whose microphone request is granted,
three ticks of its interval, one chunk, a stop and the stop event of the recorder. -/
def scenarioTake : RecorderRun :=
  runRecorder [.clickStart, .acquired (.ok micStream), .tick 1, .tick 1, .tick 1, .data "audio",
    .clickStop, .stopEvent 0]

/-- Two clicks on the start control while the microphone request of the first is pending;
the first request is granted, the session records for one second and buffers one chunk. -/
def doubleClickFirstGranted : List RecorderAction :=
  [.clickStart, .clickStart, .acquired (.ok micStream), .tick 1, .data "chunk-1"]

/-- The run above, followed by the grant of the second request. -/
def doubleClickBothGranted : List RecorderAction :=
  doubleClickFirstGranted ++ [.acquired (.ok micStream)]

/-- An expired-credentials failure and a server failure carrying the same detail. -/
def unauthorized : AxiosError := { status := some 401, detail := some "Sessão expirada" }

/-- A server failure carrying the same detail as `unauthorized`. -/
def serverFailure : AxiosError := { status := some 500, detail := some "Sessão expirada" }

/-- A transcribed record. -/
def transcribedRecord : Transcription :=
  { id := some "42"
    title := some "Consulta 06/11/2026"
    status := some "transcribed"
    transcript_text := some "texto"
    created_at := some "2026-11-06T10:00:00Z" }

/-- The detail page of the transcribed record, loaded. -/
def detailPage : DetailState :=
  { id := "42", transcription := some transcribedRecord, loading := false }

/-- Structured notes returned by the service. -/
def notesA : StructuredNotes :=
  { anamnese := "a", exame_fisico := "b", hipotese_diagnostica := "c", conduta := "d" }

/-- A browser storage holding a session and one unrelated item. -/
def signedInStorage : LocalStorage :=
  { items := [("token", "jwt"), ("theme", "dark"), ("user", "dr-ana")] }

/-- Other structured notes returned by the service. -/
def notesB : StructuredNotes :=
  { anamnese := "e", exame_fisico := "f", hipotese_diagnostica := "g", conduta := "h" }

/-- One day in milliseconds. -/
def DAY : Int := 86400000

/-- A Dashboard whose account is expired, with the list loaded and empty. -/
def expiredEmptyDashboard : DashboardState :=
  { userInfo := some { subscription_status := some "expired", subscription_end_date := some 0 }
    loading := false
    transcriptions := [] }

/-- A recorder holding a finished take. -/
def recordedTake : RecorderState :=
  { audioBlob := some { parts := ["chunk-1", "chunk-2"], type := "audio/webm" }
    recordingTime := 3 }

/-- An account with the given server-reported status and end date. -/
def account (status : String) (endDate : Int) : Option UserInfo :=
  some { subscription_status := some status, subscription_end_date := some endDate }

/-! ## Lemmas on the day arithmetic -/

theorem mathCeilDiv_le_iff (x k : Int) :
    mathCeilDiv x 86400000 ≤ k ↔ x ≤ k * 86400000 := by
  unfold mathCeilDiv
  omega

theorem lt_mathCeilDiv_iff (x k : Int) :
    k < mathCeilDiv x 86400000 ↔ k * 86400000 < x := by
  unfold mathCeilDiv
  omega

theorem getDaysUntilExpiry_some (userInfo : Option UserInfo) (endDate now : Int)
    (h : (userInfo.bind fun u => u.subscription_end_date) = some endDate) :
    getDaysUntilExpiry userInfo now = mathCeilDiv (endDate - now) 86400000 := by
  simp [getDaysUntilExpiry, h]

theorem getDaysUntilExpiry_none (userInfo : Option UserInfo) (now : Int)
    (h : (userInfo.bind fun u => u.subscription_end_date) = none) :
    getDaysUntilExpiry userInfo now = 0 := by
  simp [getDaysUntilExpiry, h]

/-! ## Lemmas on the upload path -/

theorem uploadAudio_calls_once (s : RecorderState) (b : Blob) (today : String)
    (remote : Except AxiosError UploadResponse) (h : s.audioBlob = some b) :
    transcriptionCalls (uploadAudio s today remote).2 = 1 := by
  cases remote <;> simp [uploadAudio, h, transcriptionCalls]

theorem newRecordingBtn_guarded (d : DashboardState) (r : RecorderState) (today : String)
    (remote : Except AxiosError UploadResponse) (h : canCreateNew d.userInfo = false) :
    submitFromDashboard d .newRecordingBtn r today remote = [] := by
  simp [submitFromDashboard, Dashboard_click, controlEnabled, h]

theorem newRecordingBtn_onClick_guarded (d : DashboardState)
    (h : canCreateNew d.userInfo = false) :
    newRecordingBtn_onClick d
      = [.toastError "Assinatura expirada. Renove para criar novas transcrições."] := by
  simp [newRecordingBtn_onClick, h]

/-! ## Lemmas on the banner and the gate -/

theorem banner_type_danger_iff (userInfo : Option UserInfo) (now : Int) :
    (getSubscriptionBanner userInfo now).type = some "danger"
      ↔ subscriptionStatus userInfo = some "expired" := by
  unfold getSubscriptionBanner
  by_cases h1 : subscriptionStatus userInfo = some "expired"
  · simp [h1]
  · by_cases h2 : subscriptionStatus userInfo = some "grace_period"
    · simp [h2]
    · by_cases h3 : subscriptionStatus userInfo = some "active"
          ∧ getDaysUntilExpiry userInfo now ≤ 7 ∧ getDaysUntilExpiry userInfo now > 0
      · simp only [h1, h2, h3]
        simp
      · simp only [h1, h2, h3]
        simp

theorem banner_type_warning_iff (userInfo : Option UserInfo) (now : Int) :
    (getSubscriptionBanner userInfo now).type = some "warning"
      ↔ subscriptionStatus userInfo = some "grace_period" := by
  unfold getSubscriptionBanner
  by_cases h1 : subscriptionStatus userInfo = some "expired"
  · simp [h1]
  · by_cases h2 : subscriptionStatus userInfo = some "grace_period"
    · simp [h2]
    · by_cases h3 : subscriptionStatus userInfo = some "active"
          ∧ getDaysUntilExpiry userInfo now ≤ 7 ∧ getDaysUntilExpiry userInfo now > 0
      · simp only [h1, h2, h3]
        simp
      · simp only [h1, h2, h3]
        simp

theorem canCreateNew_eq_false_iff (userInfo : Option UserInfo) :
    canCreateNew userInfo = false
      ↔ subscriptionStatus userInfo ≠ some "active"
        ∧ subscriptionStatus userInfo ≠ some "grace_period" := by
  simp [canCreateNew]

/-! ## The upload gate -/

/-- C1 (evaluation at the failing input): the account is expired, so `canCreateNew` is
false and `new-recording-btn` makes no request, yet a click on `empty-state-record-btn`
navigates to the recorder, where `uploadAudio` sends the take to the transcription
service once and reports success; no error notification is produced. -/
theorem C1_empty_state_button_reaches_transcription_service :
    canCreateNew expiredEmptyDashboard.userInfo = false
    ∧ submitFromDashboard expiredEmptyDashboard .newRecordingBtn recordedTake "06/11/2026"
        (.ok { id := "42" }) = []
    ∧ submitFromDashboard expiredEmptyDashboard .emptyStateRecordBtn recordedTake "06/11/2026"
        (.ok { id := "42" })
      = [ .navigate "/recorder",
          .postUpload { parts := ["chunk-1", "chunk-2"], type := "audio/webm" } "recording.webm"
            "Consulta 06/11/2026",
          .toastSuccess "Transcrição concluída!",
          .navigate "/transcription/42" ]
    ∧ transcriptionCalls (submitFromDashboard expiredEmptyDashboard .emptyStateRecordBtn
        recordedTake "06/11/2026" (.ok { id := "42" })) = 1 := by
  decide

/-! ## The subscription gate -/

/-- C2: when the server-reported status is `expired`, the banner is the danger banner
and `canCreateNew` is false, for every end date and every evaluation instant. -/
theorem C2_expired_status_is_authoritative (userInfo : Option UserInfo) (now : Int)
    (h : subscriptionStatus userInfo = some "expired") :
    (getSubscriptionBanner userInfo now).show_ = true
    ∧ (getSubscriptionBanner userInfo now).type = some "danger"
    ∧ (getSubscriptionBanner userInfo now).message
        = some "Assinatura expirada. Você está em modo leitura. Entre em contato com o administrador."
    ∧ canCreateNew userInfo = false := by
  simp [getSubscriptionBanner, canCreateNew, h]

theorem C2_expired_status_is_authoritative_witness :
    subscriptionStatus (account "expired" (400 * DAY)) = some "expired"
    ∧ getDaysUntilExpiry (account "expired" (400 * DAY)) 0 = 400
    ∧ (getSubscriptionBanner (account "expired" (400 * DAY)) 0).type = some "danger"
    ∧ canCreateNew (account "expired" (400 * DAY)) = false :=
  have h := C2_expired_status_is_authoritative
    (account "expired" (400 * DAY))
    0 (by decide)
  ⟨by decide, by decide, h.2.1, h.2.2.2⟩

/-- C3: when the server-reported status is `grace_period`, the banner is the warning
banner, `canCreateNew` is true, and the number printed in the message is the absolute
value of the day count, for every end date and every evaluation instant. -/
theorem C3_grace_period_banner (userInfo : Option UserInfo) (now : Int)
    (h : subscriptionStatus userInfo = some "grace_period") :
    (getSubscriptionBanner userInfo now).show_ = true
    ∧ (getSubscriptionBanner userInfo now).type = some "warning"
    ∧ canCreateNew userInfo = true
    ∧ ∃ n : Nat, (n : Int) = |getDaysUntilExpiry userInfo now|
        ∧ (getSubscriptionBanner userInfo now).message
          = some ("Período de graça: " ++ toString n ++ " dias restantes antes do modo leitura.") := by
  refine ⟨?_, ?_, ?_, (getDaysUntilExpiry userInfo now).natAbs, ?_, ?_⟩
  · simp [getSubscriptionBanner, h]
  · simp [getSubscriptionBanner, h]
  · simp [canCreateNew, h]
  · exact Int.natCast_natAbs _
  · simp [getSubscriptionBanner, h]

theorem C3_grace_period_banner_witness :
    subscriptionStatus (account "grace_period" (-(2 * DAY) - 1)) = some "grace_period"
    ∧ getDaysUntilExpiry (account "grace_period" (-(2 * DAY) - 1)) 0 = -2
    ∧ (getSubscriptionBanner (account "grace_period" (-(2 * DAY) - 1)) 0).type = some "warning"
    ∧ canCreateNew (account "grace_period" (-(2 * DAY) - 1)) = true
    ∧ (getSubscriptionBanner (account "grace_period" (-(2 * DAY) - 1)) 0).message
      = some "Período de graça: 2 dias restantes antes do modo leitura." :=
  have h := C3_grace_period_banner
    (account "grace_period" (-(2 * DAY) - 1)) 0 (by decide)
  ⟨by decide, by decide, h.2.1, h.2.2.1, by decide⟩

/-- C4: when the server-reported status is `active`, `canCreateNew` is true for every
end date and instant; the info banner (upcoming-expiry advisory) is returned if and
only if `0 < daysRemaining ≤ 7`, and otherwise no banner is shown. -/
theorem C4_active_gate_and_advisory (userInfo : Option UserInfo) (now : Int)
    (h : subscriptionStatus userInfo = some "active") :
    canCreateNew userInfo = true
    ∧ (((getSubscriptionBanner userInfo now).show_ = true
          ∧ (getSubscriptionBanner userInfo now).type = some "info")
        ↔ (0 < getDaysUntilExpiry userInfo now ∧ getDaysUntilExpiry userInfo now ≤ 7))
    ∧ (¬ (0 < getDaysUntilExpiry userInfo now ∧ getDaysUntilExpiry userInfo now ≤ 7)
        → getSubscriptionBanner userInfo now = { show_ := false }) := by
  refine ⟨by simp [canCreateNew, h], ?_, ?_⟩
  · by_cases hd : getDaysUntilExpiry userInfo now ≤ 7 ∧ getDaysUntilExpiry userInfo now > 0
    · simp [getSubscriptionBanner, h, hd]
    · simp only [getSubscriptionBanner, h, hd]
      simp
      intro h0
      exact not_le.mp fun h7 => hd ⟨h7, h0⟩
  · intro hn
    have hd : ¬ (getDaysUntilExpiry userInfo now ≤ 7 ∧ getDaysUntilExpiry userInfo now > 0) :=
      fun hd => hn ⟨hd.2, hd.1⟩
    simp only [getSubscriptionBanner, h, hd]
    simp

theorem C4_active_gate_and_advisory_witness :
    subscriptionStatus (account "active" (7 * DAY)) = some "active"
    ∧ getDaysUntilExpiry (account "active" (7 * DAY)) 0 = 7
    ∧ canCreateNew (account "active" (7 * DAY)) = true
    ∧ (getSubscriptionBanner (account "active" (7 * DAY)) 0).type = some "info" :=
  have h := C4_active_gate_and_advisory
    (account "active" (7 * DAY))
    0 (by decide)
  ⟨by decide, by decide, h.1, (h.2.1.mpr (by decide)).2⟩

/-- C5: for a non-null end date, the day count is the ceiling of
`(endDate - now) / 86400000`: it is the least integer `d` with
`d * 86400000 ≥ endDate - now`, so a partial day counts as a full day. This holds for
`Dashboard.getDaysUntilExpiry` and for `AdminPanel.getDaysRemaining`. -/
theorem C5_days_is_ceiling (userInfo : Option UserInfo) (endDate now : Int)
    (h : (userInfo.bind fun u => u.subscription_end_date) = some endDate) :
    getDaysUntilExpiry userInfo now = ⌈((endDate - now : Int) : ℚ) / 86400000⌉
    ∧ IsLeast {d : Int | d * 86400000 ≥ endDate - now} (getDaysUntilExpiry userInfo now)
    ∧ getDaysRemaining (some endDate) now = ⌈((endDate - now : Int) : ℚ) / 86400000⌉
    ∧ IsLeast {d : Int | d * 86400000 ≥ endDate - now} (getDaysRemaining (some endDate) now) := by
  have hA : getDaysRemaining (some endDate) now = mathCeilDiv (endDate - now) 86400000 := by
    simp [getDaysRemaining]
  rw [getDaysUntilExpiry_some userInfo endDate now h, hA]
  have hle := (mathCeilDiv_le_iff (endDate - now) (mathCeilDiv (endDate - now) 86400000)).mp le_rfl
  have hlt := (lt_mathCeilDiv_iff (endDate - now) (mathCeilDiv (endDate - now) 86400000 - 1)).mp
    (by omega)
  have hceil : mathCeilDiv (endDate - now) 86400000
      = ⌈((endDate - now : Int) : ℚ) / 86400000⌉ := by
    symm
    rw [Int.ceil_eq_iff]
    constructor
    · rw [lt_div_iff₀ (by norm_num)]
      exact_mod_cast hlt
    · rw [div_le_iff₀ (by norm_num)]
      exact_mod_cast hle
  have hleast : IsLeast {d : Int | d * 86400000 ≥ endDate - now}
      (mathCeilDiv (endDate - now) 86400000) :=
    ⟨hle, fun d hd => (mathCeilDiv_le_iff (endDate - now) d).mpr hd⟩
  exact ⟨hceil, hleast, hceil, hleast⟩

theorem C5_days_is_ceiling_witness :
    ((account "active" (DAY + 1)).bind fun u => u.subscription_end_date) = some (DAY + 1)
    ∧ getDaysUntilExpiry (account "active" (DAY + 1)) 0 = 2
    ∧ IsLeast {d : Int | d * 86400000 ≥ (DAY + 1) - 0}
        (getDaysUntilExpiry (account "active" (DAY + 1)) 0)
    ∧ IsLeast {d : Int | d * 86400000 ≥ (DAY + 1) - 0} (getDaysRemaining (some (DAY + 1)) 0) :=
  have h := C5_days_is_ceiling (account "active" (DAY + 1)) (DAY + 1) 0 (by decide)
  ⟨by decide, by decide, h.2.1, h.2.2.2⟩

/-- C6 (counterexample): with a null end date and server status `active`, the day count
is 0 but `canCreateNew` is true and no expired banner is returned. -/
theorem C6_null_endDate_active_counterexample :
    ((some { subscription_status := some "active" } : Option UserInfo).bind
        fun u => u.subscription_end_date) = none
    ∧ getDaysUntilExpiry (some { subscription_status := some "active" }) 0 = 0
    ∧ canCreateNew (some { subscription_status := some "active" }) = true
    ∧ getSubscriptionBanner (some { subscription_status := some "active" }) 0
        = { show_ := false } := by
  decide

/-- C6 (amended): for every input whose end date is null the day count is 0; the
expired banner is returned exactly when the server-reported status is `expired`, and
`canCreateNew` is false exactly when that status is neither `active` nor
`grace_period`. -/
theorem C6_null_endDate (userInfo : Option UserInfo) (now : Int)
    (h : (userInfo.bind fun u => u.subscription_end_date) = none) :
    getDaysUntilExpiry userInfo now = 0
    ∧ ((getSubscriptionBanner userInfo now).type = some "danger"
        ↔ subscriptionStatus userInfo = some "expired")
    ∧ (canCreateNew userInfo = false
        ↔ subscriptionStatus userInfo ≠ some "active"
          ∧ subscriptionStatus userInfo ≠ some "grace_period") :=
  ⟨getDaysUntilExpiry_none userInfo now h, banner_type_danger_iff userInfo now,
    canCreateNew_eq_false_iff userInfo⟩

theorem C6_null_endDate_witness :
    ((some { subscription_status := some "expired" } : Option UserInfo).bind
        fun u => u.subscription_end_date) = none
    ∧ getDaysUntilExpiry (some { subscription_status := some "expired" }) 5 = 0
    ∧ (getSubscriptionBanner (some { subscription_status := some "expired" }) 5).type
        = some "danger"
    ∧ canCreateNew (some { subscription_status := some "expired" }) = false :=
  have h := C6_null_endDate (some { subscription_status := some "expired" }) 5 (by decide)
  ⟨by decide, h.1, h.2.1.mpr (by decide), h.2.2.mpr (by decide)⟩

/-- C7: with server status `active`, an end date more than 7 days after `now` raises
no advisory (no banner is shown), and an end date between 1 and 7 days (inclusive)
after `now` raises the advisory: the evaluation returns the info banner. -/
theorem C7_advisory_window (userInfo : Option UserInfo) (endDate now : Int)
    (hs : subscriptionStatus userInfo = some "active")
    (he : (userInfo.bind fun u => u.subscription_end_date) = some endDate) :
    (7 * 86400000 < endDate - now → getSubscriptionBanner userInfo now = { show_ := false })
    ∧ (1 * 86400000 ≤ endDate - now ∧ endDate - now ≤ 7 * 86400000 →
        (getSubscriptionBanner userInfo now).show_ = true
        ∧ (getSubscriptionBanner userInfo now).type = some "info") := by
  have hd := getDaysUntilExpiry_some userInfo endDate now he
  constructor
  · intro hfar
    have h7 : 7 < getDaysUntilExpiry userInfo now := by
      rw [hd]
      exact (lt_mathCeilDiv_iff (endDate - now) 7).mpr hfar
    have hn : ¬ (getDaysUntilExpiry userInfo now ≤ 7 ∧ getDaysUntilExpiry userInfo now > 0) :=
      fun h => absurd h.1 (not_le.mpr h7)
    simp only [getSubscriptionBanner, hs, hn]
    simp
  · intro hnear
    have h7 : getDaysUntilExpiry userInfo now ≤ 7 := by
      rw [hd]
      exact (mathCeilDiv_le_iff (endDate - now) 7).mpr hnear.2
    have h0 : getDaysUntilExpiry userInfo now > 0 := by
      rw [hd]
      exact (lt_mathCeilDiv_iff (endDate - now) 0).mpr (by omega)
    simp [getSubscriptionBanner, hs, h7, h0]

theorem C7_advisory_window_witness :
    subscriptionStatus (account "active" (10 * DAY)) = some "active"
    ∧ (7 * 86400000 < 10 * DAY - 0)
    ∧ getSubscriptionBanner (account "active" (10 * DAY)) 0 = { show_ := false }
    ∧ subscriptionStatus (account "active" (1 * DAY)) = some "active"
    ∧ (1 * 86400000 ≤ 1 * DAY - 0 ∧ 1 * DAY - 0 ≤ 7 * 86400000)
    ∧ (getSubscriptionBanner (account "active" (1 * DAY)) 0).type = some "info" :=
  ⟨by decide, by decide,
    (C7_advisory_window (account "active" (10 * DAY)) (10 * DAY) 0 (by decide) (by decide)).1
      (by decide),
    by decide, by decide,
    ((C7_advisory_window (account "active" (1 * DAY)) (1 * DAY) 0 (by decide) (by decide)).2
      (by decide)).2⟩

/-- C8 (counterexample): the end date lies 1000 days in the past, far beyond a grace
window of 30 days, and the server reports `active`: `canCreateNew` is true and no
expired banner is returned. -/
theorem C8_past_endDate_active_counterexample :
    (0 + 30 * DAY < 1000 * DAY)
    ∧ getDaysUntilExpiry (account "active" 0) (1000 * DAY) = -1000
    ∧ canCreateNew (account "active" 0) = true
    ∧ getSubscriptionBanner (account "active" 0) (1000 * DAY) = { show_ := false } := by
  decide

/-- C8 (amended): for every end date in the past by more than the grace window,
whatever the length of that window, the gate returns the expired banner and
`canCreateNew = false` exactly when the server-reported status is `expired`; with
server status `active` or `grace_period`, `canCreateNew` is true. -/
theorem C8_expired_only_on_server_status (userInfo : Option UserInfo)
    (endDate now graceWindow : Int)
    (_he : (userInfo.bind fun u => u.subscription_end_date) = some endDate)
    (_hg : 0 ≤ graceWindow) (_hpast : endDate + graceWindow < now) :
    (((getSubscriptionBanner userInfo now).type = some "danger" ∧ canCreateNew userInfo = false)
      ↔ subscriptionStatus userInfo = some "expired")
    ∧ (subscriptionStatus userInfo = some "active"
        ∨ subscriptionStatus userInfo = some "grace_period" → canCreateNew userInfo = true) := by
  constructor
  · constructor
    · intro h
      exact (banner_type_danger_iff userInfo now).mp h.1
    · intro h
      exact ⟨(banner_type_danger_iff userInfo now).mpr h, by simp [canCreateNew, h]⟩
  · intro h
    simpa [canCreateNew] using h

theorem C8_expired_only_on_server_status_witness :
    (0 + 30 * DAY < 1000 * DAY)
    ∧ (getSubscriptionBanner (account "expired" 0) (1000 * DAY)).type = some "danger"
    ∧ canCreateNew (account "expired" 0) = false :=
  have h := C8_expired_only_on_server_status (account "expired" 0) 0 (1000 * DAY) (30 * DAY)
    (by decide) (by decide) (by decide)
  ⟨by decide, (h.1.mpr (by decide)).1, (h.1.mpr (by decide)).2⟩

/-- C9: for a non-null end date at or before `now` the day count is negative or zero,
and for an end date strictly after `now` it is at least 1; in the grace-period message
of an account whose end date is at or before `now`, the count printed is
`-daysRemaining`, a non-negative number. -/
theorem C9_sign_of_day_count (userInfo : Option UserInfo) (endDate now : Int)
    (he : (userInfo.bind fun u => u.subscription_end_date) = some endDate) :
    (endDate ≤ now → getDaysUntilExpiry userInfo now ≤ 0)
    ∧ (now < endDate → 1 ≤ getDaysUntilExpiry userInfo now)
    ∧ (endDate ≤ now → subscriptionStatus userInfo = some "grace_period" →
        ∃ n : Nat, (n : Int) = - getDaysUntilExpiry userInfo now
          ∧ (getSubscriptionBanner userInfo now).message
            = some ("Período de graça: " ++ toString n
                ++ " dias restantes antes do modo leitura.")) := by
  have hd := getDaysUntilExpiry_some userInfo endDate now he
  have hpast : endDate ≤ now → getDaysUntilExpiry userInfo now ≤ 0 := by
    intro hle
    rw [hd]
    exact (mathCeilDiv_le_iff (endDate - now) 0).mpr (by omega)
  refine ⟨hpast, ?_, ?_⟩
  · intro hlt
    rw [hd]
    exact (lt_mathCeilDiv_iff (endDate - now) 0).mpr (by omega)
  · intro hle hs
    refine ⟨(getDaysUntilExpiry userInfo now).natAbs, ?_, ?_⟩
    · have := hpast hle
      omega
    · simp [getSubscriptionBanner, hs]

theorem C9_sign_of_day_count_witness :
    getDaysUntilExpiry (account "grace_period" (-(2 * DAY) - 1)) 0 ≤ 0
    ∧ 1 ≤ getDaysUntilExpiry (account "active" 1) 0
    ∧ ∃ n : Nat, (n : Int) = - getDaysUntilExpiry (account "grace_period" (-(2 * DAY) - 1)) 0
        ∧ (getSubscriptionBanner (account "grace_period" (-(2 * DAY) - 1)) 0).message
          = some ("Período de graça: " ++ toString n
              ++ " dias restantes antes do modo leitura.") :=
  ⟨(C9_sign_of_day_count (account "grace_period" (-(2 * DAY) - 1)) (-(2 * DAY) - 1) 0
      (by decide)).1 (by decide),
    (C9_sign_of_day_count (account "active" 1) 1 0 (by decide)).2.1 (by decide),
    (C9_sign_of_day_count (account "grace_period" (-(2 * DAY) - 1)) (-(2 * DAY) - 1) 0
      (by decide)).2.2 (by decide) (by decide)⟩

/-- C10 (counterexample): two evaluations with the same end date and the same instant,
one with server status `active` and one with `expired`, give different banners and
different values of `canCreateNew`. -/
theorem C10_same_dates_different_gate_counterexample :
    ((account "active" (30 * DAY)).bind fun u => u.subscription_end_date)
      = ((account "expired" (30 * DAY)).bind fun u => u.subscription_end_date)
    ∧ canCreateNew (account "active" (30 * DAY)) = true
    ∧ canCreateNew (account "expired" (30 * DAY)) = false
    ∧ (getSubscriptionBanner (account "active" (30 * DAY)) 0).type = none
    ∧ (getSubscriptionBanner (account "expired" (30 * DAY)) 0).type = some "danger" := by
  decide

/-- C10 (amended): `canCreateNew` and the expired and grace-period banners are a
function of the server-reported status alone: two evaluations with the same
server-reported status agree on them whatever the end dates and instants; and two
evaluations with the same server-reported status, end date and instant return the same
banner. -/
theorem C10_gate_determined_by_server_status (u₁ u₂ : Option UserInfo) (now₁ now₂ : Int)
    (h : subscriptionStatus u₁ = subscriptionStatus u₂) :
    canCreateNew u₁ = canCreateNew u₂
    ∧ ((getSubscriptionBanner u₁ now₁).type = some "danger"
        ↔ (getSubscriptionBanner u₂ now₂).type = some "danger")
    ∧ ((getSubscriptionBanner u₁ now₁).type = some "warning"
        ↔ (getSubscriptionBanner u₂ now₂).type = some "warning")
    ∧ ((u₁.bind fun u => u.subscription_end_date) = (u₂.bind fun u => u.subscription_end_date)
        → now₁ = now₂ → getSubscriptionBanner u₁ now₁ = getSubscriptionBanner u₂ now₂) := by
  refine ⟨by simp [canCreateNew, h], ?_, ?_, ?_⟩
  · rw [banner_type_danger_iff, banner_type_danger_iff, h]
  · rw [banner_type_warning_iff, banner_type_warning_iff, h]
  · intro he hn
    subst hn
    have hd : getDaysUntilExpiry u₁ now₁ = getDaysUntilExpiry u₂ now₁ := by
      simp [getDaysUntilExpiry, he]
    simp only [getSubscriptionBanner, h, hd]

theorem C10_gate_determined_by_server_status_witness :
    subscriptionStatus (account "grace_period" 0) = subscriptionStatus (account "grace_period" DAY)
    ∧ canCreateNew (account "grace_period" 0) = canCreateNew (account "grace_period" DAY)
    ∧ ((getSubscriptionBanner (account "grace_period" 0) 5).type = some "warning"
        ↔ (getSubscriptionBanner (account "grace_period" DAY) 77).type = some "warning") :=
  have h := C10_gate_determined_by_server_status (account "grace_period" 0)
    (account "grace_period" DAY) 5 77 (by decide)
  ⟨by decide, h.1, h.2.2.1⟩

/-! ## Lemmas on the capture session -/

theorem foldl_ondataavailable (cs : List String) (s : RecorderState) :
    cs.foldl ondataavailable s = { s with audioChunksRef := s.audioChunksRef ++ cs } := by
  induction cs generalizing s with
  | nil => simp
  | cons c cs ih => simp [ih, ondataavailable]

theorem stopTracks_not_live (m : MediaStream) :
    ∀ t ∈ m.stopTracks.tracks, t.live = false := by
  intro t ht
  simp only [MediaStream.stopTracks, List.mem_map] at ht
  obtain ⟨t₀, _, rfl⟩ := ht
  rfl

theorem not_mem_clearInterval (intervals : List Nat) (t : Nat) :
    t ∉ clearInterval intervals (some t) := by
  simp [clearInterval]

theorem completeTake_recorders (s₀ : RecorderState) (stream : MediaStream)
    (before after : List String) :
    (completeTake s₀ stream before after).recorders
      = List.map
          (fun r : MediaRecorder => if r.id = s₀.nextRecorderId
            then { id := r.id, stream := r.stream.stopTracks, recording := false } else r)
          (s₀.recorders ++ [{ id := s₀.nextRecorderId, stream := stream, recording := true }]) := by
  simp only [completeTake, startRecording, stopRecording, foldl_ondataavailable, onstop,
    if_true, List.map_map]
  congr 1
  funext r
  by_cases h : r.id = s₀.nextRecorderId <;> simp [h, MediaRecorder.stop]

/-! ## The capture session -/

/-- C11 (evaluation at the failing input): the start control is clicked twice while the
microphone request of the first click is pending, and both requests are granted. The
second click is accepted, because nothing has been written yet. When the second request is
granted the session is already recording, with recorder 0, one buffered chunk and interval
1 running: `startRecording` is not rejected, it reports success, replaces the recorder in
`mediaRecorderRef`, empties the chunk buffer, replaces `timerRef` and leaves two intervals
running, so the counter advances twice a second. After a stop and the stop event of the
second recorder, interval 1 is still running, recorder 0 is still recording and its track
is still live. -/
theorem C11_double_click_restarts_recording_session :
    (runRecorder [.clickStart, .clickStart]).pendingStart = 2
    ∧ (runRecorder doubleClickFirstGranted).state = recordingSession
    ∧ recordingSession.isRecording = true
    ∧ recordingSession.mediaRecorderRef = some 0
    ∧ recordingSession.audioChunksRef = ["chunk-1"]
    ∧ recordingSession.timerRef = some 1
    ∧ recordingSession.intervals = [1]
    ∧ (runRecorder doubleClickFirstGranted).pendingStart = 1
    ∧ (startRecording recordingSession (.ok micStream)).2
        = [.getUserMedia, .toastSuccess "Gravação iniciada"]
    ∧ (runRecorder doubleClickBothGranted).state
        = (startRecording recordingSession (.ok micStream)).1
    ∧ (runRecorder doubleClickBothGranted).state.mediaRecorderRef = some 1
    ∧ (runRecorder doubleClickBothGranted).state.audioChunksRef = []
    ∧ (runRecorder doubleClickBothGranted).state.timerRef = some 2
    ∧ (runRecorder doubleClickBothGranted).state.intervals = [1, 2]
    ∧ (runRecorder (doubleClickBothGranted ++ [.tick 1, .tick 2])).state.recordingTime
        = recordingSession.recordingTime + 2
    ∧ (runRecorder (doubleClickBothGranted ++ [.clickStop, .stopEvent 1])).state.intervals = [1]
    ∧ (runRecorder (doubleClickBothGranted ++ [.clickStop, .stopEvent 1])).state.recorders
        = [ { id := 0, stream := { tracks := [{ live := true }] }, recording := true },
            { id := 1, stream := { tracks := [{ live := false }] }, recording := false } ]
    ∧ liveTracks (runRecorder (doubleClickBothGranted ++ [.clickStop, .stopEvent 1])).state = 1 := by
  decide

/-- C12: `stopRecording` called when the session is not recording is a no-op: the whole
state (`isRecording`, the elapsed counter, the artifact, the title, the chunk buffer, the
timer) is unchanged and no effect, in particular no error, is produced. -/
theorem C12_stop_outside_recording_is_noop (s : RecorderState) (h : s.isRecording = false) :
    stopRecording s = (s, [])
    ∧ (stopRecording s).1.isRecording = s.isRecording
    ∧ (stopRecording s).1.recordingTime = s.recordingTime
    ∧ (stopRecording s).1.audioBlob = s.audioBlob
    ∧ (stopRecording s).1.title = s.title
    ∧ (stopRecording s).1.audioChunksRef = s.audioChunksRef
    ∧ (stopRecording s).1.timerRef = s.timerRef
    ∧ (stopRecording s).1.intervals = s.intervals := by
  have hc : stopRecording s = (s, []) := by
    unfold stopRecording
    cases s.mediaRecorderRef <;> simp [h]
  refine ⟨hc, ?_, ?_, ?_, ?_, ?_, ?_, ?_⟩ <;> rw [hc]

theorem C12_stop_outside_recording_is_noop_witness :
    ({} : RecorderState).isRecording = false
    ∧ stopRecording {} = ({}, [])
    ∧ (completeTake {} micStream ["chunk-1"] []).mediaRecorderRef = some 0
    ∧ stopRecording (completeTake {} micStream ["chunk-1"] [])
        = (completeTake {} micStream ["chunk-1"] [], []) :=
  ⟨by decide, (C12_stop_outside_recording_is_noop {} (by decide)).1, by decide,
    (C12_stop_outside_recording_is_noop (completeTake {} micStream ["chunk-1"] [])
      (by decide)).1⟩

/-- C13: for every sequence of chunks delivered during a recording (before `stop()` and
between `stop()` and the stop event), stopping yields one artifact made of the chunks in
arrival order with content type `audio/webm`; the recorder is inactive and every track of
its stream is stopped, the interval of the recording is no longer running, and the session
is not recording with the artifact present. -/
theorem C13_stop_finalizes_chunks_in_order (s₀ : RecorderState) (stream : MediaStream)
    (before after : List String) :
    (completeTake s₀ stream before after).audioBlob
      = some { parts := before ++ after, type := "audio/webm" }
    ∧ { id := s₀.nextRecorderId, stream := stream.stopTracks, recording := false }
        ∈ (completeTake s₀ stream before after).recorders
    ∧ (∀ r ∈ (completeTake s₀ stream before after).recorders, r.id = s₀.nextRecorderId →
        r.recording = false ∧ ∀ t ∈ r.stream.tracks, t.live = false)
    ∧ (completeTake s₀ stream before after).timerRef = some s₀.nextTimerId
    ∧ s₀.nextTimerId ∉ (completeTake s₀ stream before after).intervals
    ∧ (completeTake s₀ stream before after).isRecording = false := by
  refine ⟨?_, ?_, ?_, ?_, ?_, ?_⟩
  · simp [completeTake, startRecording, stopRecording, foldl_ondataavailable, onstop]
  · rw [completeTake_recorders]
    simp
  · intro r hr hid
    rw [completeTake_recorders, List.mem_map] at hr
    obtain ⟨r₀, _, rfl⟩ := hr
    by_cases h0 : r₀.id = s₀.nextRecorderId
    · rw [if_pos h0]
      exact ⟨rfl, stopTracks_not_live _⟩
    · simp [h0] at hid
  · simp [completeTake, startRecording, stopRecording, foldl_ondataavailable, onstop,
      setInterval]
  · have hi : (completeTake s₀ stream before after).intervals
        = clearInterval (s₀.intervals ++ [s₀.nextTimerId]) (some s₀.nextTimerId) := by
      simp [completeTake, startRecording, stopRecording, foldl_ondataavailable, onstop,
        setInterval]
    rw [hi]
    exact not_mem_clearInterval _ _
  · simp [completeTake, startRecording, stopRecording, foldl_ondataavailable, onstop]

/-- C14 (evaluation at the failing input): a session is recording on a stream with one
live track. Unmounting the component ends the recording session and clears the interval,
but the recorder is still recording and its track is still live; after a normal stop and
stop event no track is live. -/
theorem C14_unmount_leaves_microphone_live :
    sessionRecording recordingSession = true
    ∧ liveTracks recordingSession = 1
    ∧ sessionRecording (unmount recordingSession) = false
    ∧ (unmount recordingSession).intervals = []
    ∧ (unmount recordingSession).recorders
        = [{ id := 0, stream := { tracks := [{ live := true }] }, recording := true }]
    ∧ liveTracks (unmount recordingSession) = 1
    ∧ liveTracks (onstop (stopRecording recordingSession).1 0) = 0 := by
  decide

/-- C15: `resetRecording` from a stopped session (not recording, artifact present)
discards the artifact and the elapsed counter and clears the title; the session is not
recording and the start control is offered again. -/
theorem C15_reset_returns_to_idle (s : RecorderState)
    (h : s.isRecording = false ∧ s.audioBlob ≠ none) :
    (resetRecording s).audioBlob = none
    ∧ (resetRecording s).recordingTime = 0
    ∧ (resetRecording s).title = ""
    ∧ (resetRecording s).isRecording = false
    ∧ startControlOffered (resetRecording s) = true := by
  simp [resetRecording, startControlOffered, h.1]

theorem C15_reset_returns_to_idle_witness :
    (recordedTake.isRecording = false ∧ recordedTake.audioBlob ≠ none)
    ∧ recordedTake.recordingTime = 3
    ∧ (resetRecording recordedTake).audioBlob = none
    ∧ (resetRecording recordedTake).recordingTime = 0 :=
  have h := C15_reset_returns_to_idle recordedTake (by decide)
  ⟨by decide, by decide, h.1, h.2.1⟩

/-- C16: when the microphone acquisition fails, `startRecording` leaves the whole state
unchanged (`isRecording`, the timer, the running intervals, the elapsed counter, the
artifact, the recorder reference and the chunk buffer); it asks for the microphone once
and reports the error. -/
theorem C16_failed_acquisition_leaves_state (s : RecorderState) (error : DOMException) :
    (startRecording s (.error error)).1 = s
    ∧ (startRecording s (.error error)).1.isRecording = s.isRecording
    ∧ (startRecording s (.error error)).1.timerRef = s.timerRef
    ∧ (startRecording s (.error error)).1.intervals = s.intervals
    ∧ (startRecording s (.error error)).1.recordingTime = s.recordingTime
    ∧ (startRecording s (.error error)).1.audioBlob = s.audioBlob
    ∧ (startRecording s (.error error)).1.mediaRecorderRef = s.mediaRecorderRef
    ∧ (startRecording s (.error error)).1.audioChunksRef = s.audioChunksRef
    ∧ acquisitions (startRecording s (.error error)).2 = 1
    ∧ (startRecording s (.error error)).2
        = [.getUserMedia, .toastError "Erro ao acessar microfone. Verifique as permissões.",
            .consoleError error.name] := by
  simp [startRecording, acquisitions]

/-! ## Structuring -/

theorem structureNotes_ok (s : DetailState) (response : StructureResponse) :
    structureNotes s (.ok response)
      = ({ s with
            transcription := some (withStructuredNotes s.transcription response.structured_notes)
            structuring := false },
          [.postStructure s.id, .toastSuccess "Notas estruturadas com sucesso!"]) := rfl

theorem structureNotes_error (s : DetailState) (error : AxiosError) :
    structureNotes s (.error error)
      = ({ s with structuring := false },
          [.postStructure s.id, .toastError (detailOr error "Erro ao estruturar notas")]) := rfl

/-- C17: when the structuring call fails, `structureNotes` leaves the record as it was
(`transcript_text`, `status`, `structured_notes`, `title`, `id` and `created_at` are
unchanged), the structuring flag is false again, and the failure is reported by one error
notification carrying the detail of the failure. -/
theorem C17_failed_structuring_leaves_record (s : DetailState) (error : AxiosError) :
    (structureNotes s (.error error)).1.transcription = s.transcription
    ∧ (∀ prev, s.transcription = some prev →
        ∃ t, (structureNotes s (.error error)).1.transcription = some t
          ∧ t.transcript_text = prev.transcript_text ∧ t.status = prev.status
          ∧ t.structured_notes = prev.structured_notes ∧ t.title = prev.title
          ∧ t.id = prev.id ∧ t.created_at = prev.created_at)
    ∧ (structureNotes s (.error error)).1.structuring = false
    ∧ (structureNotes s (.error error)).2
        = [.postStructure s.id, .toastError (detailOr error "Erro ao estruturar notas")] := by
  rw [structureNotes_error]
  refine ⟨rfl, ?_, rfl, rfl⟩
  intro prev h
  exact ⟨prev, h, rfl, rfl, rfl, rfl, rfl, rfl⟩

/-- C18: when the structuring call succeeds with notes `N`, the record afterwards has
status `structured` and `structured_notes = N`, and `transcript_text`, `title`, `id` and
`created_at` keep their prior values. -/
theorem C18_successful_structuring_frame (s : DetailState) (prev : Transcription)
    (response : StructureResponse) (h : s.transcription = some prev) :
    ∃ t, (structureNotes s (.ok response)).1.transcription = some t
      ∧ t.status = some "structured"
      ∧ t.structured_notes = response.structured_notes
      ∧ t.transcript_text = prev.transcript_text
      ∧ t.title = prev.title
      ∧ t.id = prev.id
      ∧ t.created_at = prev.created_at := by
  rw [structureNotes_ok]
  refine ⟨withStructuredNotes (some prev) response.structured_notes, ?_, ?_⟩
  · simp [h]
  · simp [withStructuredNotes]

theorem C18_successful_structuring_frame_witness :
    detailPage.transcription = some transcribedRecord
    ∧ (structureNotes detailPage (.ok { structured_notes := some notesA })).1.transcription
        = some { id := some "42"
                 title := some "Consulta 06/11/2026"
                 status := some "structured"
                 transcript_text := some "texto"
                 structured_notes := some notesA
                 created_at := some "2026-11-06T10:00:00Z" }
    ∧ ∃ t, (structureNotes detailPage (.ok { structured_notes := some notesA })).1.transcription
          = some t
        ∧ t.status = some "structured"
        ∧ t.structured_notes = some notesA
        ∧ t.transcript_text = transcribedRecord.transcript_text
        ∧ t.title = transcribedRecord.title
        ∧ t.id = transcribedRecord.id
        ∧ t.created_at = transcribedRecord.created_at :=
  ⟨by decide, by decide,
    C18_successful_structuring_frame detailPage transcribedRecord
      { structured_notes := some notesA } (by decide)⟩

/-- C19: two successful invocations of `structureNotes` returning `N₁` then `N₂` leave the
record with `structured_notes = N₂`, status `structured` and the prior transcript; the
second invocation asks for no confirmation; and when `N₁ ≠ N₂` the state after the second
invocation differs from the state after the first, so the operation is not idempotent. -/
theorem C19_restructuring_overwrites (s : DetailState) (prev : Transcription)
    (r₁ r₂ : StructureResponse) (h : s.transcription = some prev)
    (hne : r₁.structured_notes ≠ r₂.structured_notes) :
    (structureNotes s (.ok r₁)).1.transcription
        = some { prev with structured_notes := r₁.structured_notes, status := some "structured" }
    ∧ (structureNotes (structureNotes s (.ok r₁)).1 (.ok r₂)).1.transcription
        = some { prev with structured_notes := r₂.structured_notes, status := some "structured" }
    ∧ (structureNotes (structureNotes s (.ok r₁)).1 (.ok r₂)).2
        = [.postStructure s.id, .toastSuccess "Notas estruturadas com sucesso!"]
    ∧ (∀ m, Effect.confirm m ∉ (structureNotes (structureNotes s (.ok r₁)).1 (.ok r₂)).2)
    ∧ (structureNotes (structureNotes s (.ok r₁)).1 (.ok r₂)).1
        ≠ (structureNotes s (.ok r₁)).1 := by
  have h₁ : (structureNotes s (.ok r₁)).1.transcription
      = some { prev with structured_notes := r₁.structured_notes, status := some "structured" } := by
    simp [structureNotes_ok, h, withStructuredNotes]
  have h₂ : (structureNotes (structureNotes s (.ok r₁)).1 (.ok r₂)).1.transcription
      = some { prev with structured_notes := r₂.structured_notes, status := some "structured" } := by
    simp [structureNotes_ok, h, withStructuredNotes]
  have he : (structureNotes (structureNotes s (.ok r₁)).1 (.ok r₂)).2
      = [.postStructure s.id, .toastSuccess "Notas estruturadas com sucesso!"] := by
    simp [structureNotes_ok]
  refine ⟨h₁, h₂, he, ?_, ?_⟩
  · intro m hm
    rw [he] at hm
    simp at hm
  · intro heq
    have ht := congrArg DetailState.transcription heq
    rw [h₁, h₂] at ht
    simp only [Option.some.injEq] at ht
    exact hne (congrArg Transcription.structured_notes ht).symm

theorem C19_restructuring_overwrites_witness :
    detailPage.transcription = some transcribedRecord
    ∧ (some notesA ≠ some notesB)
    ∧ (structureNotes (structureNotes detailPage (.ok { structured_notes := some notesA })).1
          (.ok { structured_notes := some notesB })).1.transcription
        = some { transcribedRecord with
            structured_notes := some notesB, status := some "structured" }
    ∧ (structureNotes (structureNotes detailPage (.ok { structured_notes := some notesA })).1
          (.ok { structured_notes := some notesB })).1
        ≠ (structureNotes detailPage (.ok { structured_notes := some notesA })).1 :=
  have h := C19_restructuring_overwrites detailPage transcribedRecord
    { structured_notes := some notesA } { structured_notes := some notesB }
    (by decide) (by decide)
  ⟨by decide, by decide, h.2.1, h.2.2.2.2⟩

/-- C20: `structureNotes` preserves the invariant that `structured_notes` is non-null
only if the status is `structured`: when the record held before the call satisfies it,
the record held after the call satisfies it, whether the remote call succeeds or fails. -/
theorem C20_structuring_preserves_invariant (s : DetailState)
    (remote : Except AxiosError StructureResponse)
    (h : ∀ t, s.transcription = some t → notesOnlyIfStructured t = true) :
    ∀ t, (structureNotes s remote).1.transcription = some t → notesOnlyIfStructured t = true := by
  intro t ht
  cases remote with
  | error error =>
    rw [structureNotes_error] at ht
    exact h t ht
  | ok response =>
    rw [structureNotes_ok] at ht
    simp only [Option.some.injEq] at ht
    subst ht
    cases hp : s.transcription <;> simp [withStructuredNotes, notesOnlyIfStructured]

theorem C20_structuring_preserves_invariant_witness :
    notesOnlyIfStructured transcribedRecord = true
    ∧ (∀ t, (structureNotes detailPage (.ok { structured_notes := some notesA })).1.transcription
          = some t → notesOnlyIfStructured t = true)
    ∧ (∀ t, (structureNotes detailPage (.error { status := some 500 })).1.transcription
          = some t → notesOnlyIfStructured t = true) :=
  ⟨by decide,
    C20_structuring_preserves_invariant detailPage (.ok { structured_notes := some notesA })
      (by intro t ht; cases ht; decide),
    C20_structuring_preserves_invariant detailPage (.error { status := some 500 })
      (by intro t ht; cases ht; decide)⟩

/-! ## The response interceptor and failed remote calls -/

theorem getItem_removeItem (storage : LocalStorage) (key : String) :
    (storage.removeItem key).getItem key = none := by
  simp only [LocalStorage.getItem, LocalStorage.removeItem, Option.map_eq_none',
    List.find?_eq_none]
  intro kv hkv
  simp only [List.mem_filter, decide_eq_true_eq] at hkv
  simpa using hkv.2

theorem getItem_removeItem_of_ne (storage : LocalStorage) (key other : String)
    (h : key ≠ other) :
    (storage.removeItem other).getItem key = storage.getItem key := by
  simp only [LocalStorage.getItem, LocalStorage.removeItem, List.find?_filter]
  congr 2
  funext kv
  by_cases hkey : kv.1 = key
  · subst hkey
    simp [h]
  · simp [hkey]

theorem responseInterceptor_rejected (storage : LocalStorage) (error : AxiosError) :
    (responseInterceptor storage error).rejected = error := by
  unfold responseInterceptor
  split <;> rfl

theorem detailOr_congr (e₁ e₂ : AxiosError) (fallback : String) (h : e₁.detail = e₂.detail) :
    detailOr e₁ fallback = detailOr e₂ fallback := by
  unfold detailOr
  rw [h]

/-- C21 (counterexample): a failure with status 401 and a failure with status 500 carry
the same detail. `uploadAudio` gives the same state and the same effects for both, with the
same error notification, and so does `structureNotes`; this is also so when the error has
first passed through the response interceptor. -/
theorem C21_handlers_report_401_like_any_failure_counterexample :
    unauthorized.status = some 401
    ∧ serverFailure.status = some 500
    ∧ unauthorized.detail = serverFailure.detail
    ∧ uploadAudio recordedTake "06/11/2026" (.error unauthorized)
        = uploadAudio recordedTake "06/11/2026" (.error serverFailure)
    ∧ (uploadAudio recordedTake "06/11/2026" (.error unauthorized)).2
        = [ .postUpload { parts := ["chunk-1", "chunk-2"], type := "audio/webm" } "recording.webm"
              "Consulta 06/11/2026",
            .toastError "Sessão expirada" ]
    ∧ structureNotes detailPage (.error unauthorized)
        = structureNotes detailPage (.error serverFailure)
    ∧ (structureNotes detailPage (.error unauthorized)).2
        = [.postStructure "42", .toastError "Sessão expirada"]
    ∧ (failedUpload signedInStorage recordedTake "06/11/2026" unauthorized).2
        = (failedUpload signedInStorage recordedTake "06/11/2026" serverFailure).2
    ∧ (failedStructuring signedInStorage detailPage unauthorized).2
        = (failedStructuring signedInStorage detailPage serverFailure).2 := by
  decide

/-- C21 (amended): a failure with status 401 during upload or structuring is set apart
from any other failure by the response interceptor only, which removes the stored token and
user and redirects to `/auth` before the error reaches the handler and does nothing for
another failure. The handlers treat it as any other failure: `uploadAudio` sends the take,
raises one error notification with the detail of the failure (or the default text) and ends
with `uploading` false, `structureNotes` likewise with `structuring` false, and for a 401
and another failure carrying the same detail the state and the effects of the handler are
the same. -/
theorem C21_unauthorized_set_apart_by_interceptor_only (storage : LocalStorage)
    (s : RecorderState) (b : Blob) (d : DetailState) (today : String) (e₁ e₂ : AxiosError)
    (h₁ : e₁.status = some 401) (h₂ : e₂.status ≠ some 401) (hd : e₁.detail = e₂.detail)
    (hb : s.audioBlob = some b) :
    (failedUpload storage s today e₁).2
        = ({ s with uploading := false },
            [ .postUpload b "recording.webm" (if s.title = "" then "Consulta " ++ today else s.title),
              .toastError (detailOr e₁ "Erro ao fazer upload") ])
    ∧ (failedUpload storage s today e₂).2 = (failedUpload storage s today e₁).2
    ∧ (failedStructuring storage d e₁).2
        = ({ d with structuring := false },
            [.postStructure d.id, .toastError (detailOr e₁ "Erro ao estruturar notas")])
    ∧ (failedStructuring storage d e₂).2 = (failedStructuring storage d e₁).2
    ∧ (failedUpload storage s today e₁).1.effects = [.setLocationHref "/auth"]
    ∧ (failedUpload storage s today e₁).1.storage.getItem "token" = none
    ∧ (failedUpload storage s today e₁).1.storage.getItem "user" = none
    ∧ (failedStructuring storage d e₁).1 = (failedUpload storage s today e₁).1
    ∧ (failedUpload storage s today e₂).1.effects = []
    ∧ (failedUpload storage s today e₂).1.storage = storage
    ∧ (failedStructuring storage d e₂).1 = (failedUpload storage s today e₂).1 := by
  have t₁ : responseInterceptor storage e₁
      = { storage := (storage.removeItem "token").removeItem "user"
          effects := [.setLocationHref "/auth"], rejected := e₁ } := by
    simp [responseInterceptor, h₁]
  have t₂ : responseInterceptor storage e₂
      = { storage := storage, effects := [], rejected := e₂ } := by
    simp [responseInterceptor, h₂]
  have u₁ : (failedUpload storage s today e₁).1 = responseInterceptor storage e₁ := rfl
  have u₂ : (failedUpload storage s today e₂).1 = responseInterceptor storage e₂ := rfl
  have v₁ : (failedStructuring storage d e₁).1 = responseInterceptor storage e₁ := rfl
  have v₂ : (failedStructuring storage d e₂).1 = responseInterceptor storage e₂ := rfl
  have p : ∀ e, (failedUpload storage s today e).2
      = ({ s with uploading := false },
          [ .postUpload b "recording.webm" (if s.title = "" then "Consulta " ++ today else s.title),
            .toastError (detailOr e "Erro ao fazer upload") ]) := by
    intro e
    show uploadAudio s today (.error (responseInterceptor storage e).rejected) = _
    rw [responseInterceptor_rejected]
    simp [uploadAudio, hb]
  have q : ∀ e, (failedStructuring storage d e).2
      = ({ d with structuring := false },
          [.postStructure d.id, .toastError (detailOr e "Erro ao estruturar notas")]) := by
    intro e
    show structureNotes d (.error (responseInterceptor storage e).rejected) = _
    rw [responseInterceptor_rejected, structureNotes_error]
  refine ⟨p e₁, ?_, q e₁, ?_, ?_, ?_, ?_, ?_, ?_, ?_, ?_⟩
  · rw [p e₁, p e₂, detailOr_congr e₁ e₂ _ hd]
  · rw [q e₁, q e₂, detailOr_congr e₁ e₂ _ hd]
  · rw [u₁, t₁]
  · rw [u₁, t₁]
    show ((storage.removeItem "token").removeItem "user").getItem "token" = none
    rw [getItem_removeItem_of_ne _ _ _ (by decide)]
    exact getItem_removeItem _ _
  · rw [u₁, t₁]
    exact getItem_removeItem _ _
  · rw [u₁, v₁]
  · rw [u₂, t₂]
  · rw [u₂, t₂]
  · rw [u₂, v₂]

theorem C21_unauthorized_set_apart_by_interceptor_only_witness :
    (failedUpload signedInStorage recordedTake "06/11/2026" serverFailure).2
      = (failedUpload signedInStorage recordedTake "06/11/2026" unauthorized).2
    ∧ (failedStructuring signedInStorage detailPage serverFailure).2
      = (failedStructuring signedInStorage detailPage unauthorized).2
    ∧ (failedUpload signedInStorage recordedTake "06/11/2026" unauthorized).1.effects
      = [.setLocationHref "/auth"]
    ∧ (failedUpload signedInStorage recordedTake "06/11/2026" unauthorized).1.storage
      = { items := [("theme", "dark")] }
    ∧ (failedUpload signedInStorage recordedTake "06/11/2026" serverFailure).1.storage
      = signedInStorage :=
  have h := C21_unauthorized_set_apart_by_interceptor_only signedInStorage recordedTake
    { parts := ["chunk-1", "chunk-2"], type := "audio/webm" } detailPage "06/11/2026"
    unauthorized serverFailure (by decide) (by decide) (by decide) (by decide)
  ⟨h.2.1, h.2.2.2.1, h.2.2.2.2.1, by decide, h.2.2.2.2.2.2.2.2.2.1⟩

/-- C22: after a failed upload of a finished take the artifact, the title and the
elapsed counter are unchanged, the uploading flag is false, the session is not recording and
the upload control is offered again; and the uploading flag is false after every upload
attempt, successful or not. -/
theorem C22_failed_upload_allows_retry (s : RecorderState) (b : Blob) (today : String)
    (error : AxiosError) (hb : s.audioBlob = some b) (hr : s.isRecording = false) :
    (uploadAudio s today (.error error)).1.audioBlob = some b
    ∧ (uploadAudio s today (.error error)).1.title = s.title
    ∧ (uploadAudio s today (.error error)).1.recordingTime = s.recordingTime
    ∧ (uploadAudio s today (.error error)).1.uploading = false
    ∧ (uploadAudio s today (.error error)).1.isRecording = false
    ∧ uploadControlOffered (uploadAudio s today (.error error)).1 = true
    ∧ ∀ remote, (uploadAudio s today remote).1.uploading = false := by
  refine ⟨?_, ?_, ?_, ?_, ?_, ?_, ?_⟩
  · simp [uploadAudio, hb]
  · simp [uploadAudio, hb]
  · simp [uploadAudio, hb]
  · simp [uploadAudio, hb]
  · simp [uploadAudio, hb, hr]
  · simp [uploadAudio, hb, uploadControlOffered]
  · intro remote
    cases remote <;> simp [uploadAudio, hb]

theorem C22_failed_upload_allows_retry_witness :
    recordedTake.isRecording = false
    ∧ (uploadAudio recordedTake "06/11/2026" (.error { status := some 500 })).1 = recordedTake
    ∧ uploadControlOffered
        (uploadAudio recordedTake "06/11/2026" (.error { status := some 500 })).1 = true :=
  have h := C22_failed_upload_allows_retry recordedTake
    { parts := ["chunk-1", "chunk-2"], type := "audio/webm" } "06/11/2026"
    { status := some 500 } (by decide) (by decide)
  ⟨by decide, by decide, h.2.2.2.2.2.1⟩

/-- C23: when the user declines the confirmation, `deleteTranscription` sends no delete
request and leaves the Dashboard state, with its list, unchanged; when the user confirms,
exactly one delete request is sent, for the given id. -/
theorem C23_delete_only_when_confirmed (d : DashboardState) (id : String)
    (remote : Except AxiosError Unit) (reload : Except AxiosError (List Transcription)) :
    deleteTranscription d id false remote reload
      = (d, [.confirm "Tem certeza que deseja excluir esta transcrição?"])
    ∧ deleteCalls (deleteTranscription d id false remote reload).2 = []
    ∧ (deleteTranscription d id false remote reload).1.transcriptions = d.transcriptions
    ∧ deleteCalls (deleteTranscription d id true remote reload).2 = [id] := by
  refine ⟨by simp [deleteTranscription], by simp [deleteTranscription, deleteCalls],
    by simp [deleteTranscription], ?_⟩
  cases remote <;> cases reload <;>
    simp [deleteTranscription, deleteCalls, loadTranscriptions]

/-- C24: the title sent with the upload is the title typed by the user when it is not
empty, unchanged, and `Consulta ` followed by the date of the day otherwise. -/
theorem C24_title_sent_with_upload (s : RecorderState) (b : Blob) (today : String)
    (remote : Except AxiosError UploadResponse) (hb : s.audioBlob = some b) :
    (s.title ≠ "" → sentTitles (uploadAudio s today remote).2 = [s.title])
    ∧ (s.title = "" → sentTitles (uploadAudio s today remote).2 = ["Consulta " ++ today])
    ∧ transcriptionCalls (uploadAudio s today remote).2 = 1 := by
  refine ⟨?_, ?_, ?_⟩
  · intro ht
    cases remote <;> simp [uploadAudio, hb, sentTitles, ht]
  · intro ht
    cases remote <;> simp [uploadAudio, hb, sentTitles, ht]
  · cases remote <;> simp [uploadAudio, hb, transcriptionCalls]

theorem C24_title_sent_with_upload_witness :
    sentTitles (uploadAudio { recordedTake with title := "Consulta Paciente José" }
        "06/11/2026" (.ok { id := "42" })).2 = ["Consulta Paciente José"]
    ∧ sentTitles (uploadAudio recordedTake "06/11/2026" (.ok { id := "42" })).2
        = ["Consulta 06/11/2026"] :=
  ⟨(C24_title_sent_with_upload { recordedTake with title := "Consulta Paciente José" }
      { parts := ["chunk-1", "chunk-2"], type := "audio/webm" } "06/11/2026"
      (.ok { id := "42" }) (by decide)).1 (by decide),
    (C24_title_sent_with_upload recordedTake
      { parts := ["chunk-1", "chunk-2"], type := "audio/webm" } "06/11/2026"
      (.ok { id := "42" }) (by decide)).2.1 (by decide)⟩

/-- C26: the rejection handler of the response interceptor propagates the error it
received in every case; for an error whose response status is 401 the stored token and
user are removed and every other stored item is kept; for every other error, also one
without a response, the storage is unchanged and no effect is performed. -/
theorem C26_interceptor_invalidates_exactly_on_401 (storage : LocalStorage)
    (error : AxiosError) :
    (responseInterceptor storage error).rejected = error
    ∧ (error.status = some 401 →
        (responseInterceptor storage error).storage.getItem "token" = none
        ∧ (responseInterceptor storage error).storage.getItem "user" = none
        ∧ (∀ key, key ≠ "token" → key ≠ "user" →
            (responseInterceptor storage error).storage.getItem key = storage.getItem key)
        ∧ (responseInterceptor storage error).effects = [.setLocationHref "/auth"])
    ∧ (error.status ≠ some 401 →
        (responseInterceptor storage error).storage = storage
        ∧ (responseInterceptor storage error).effects = []) := by
  refine ⟨?_, ?_, ?_⟩
  · unfold responseInterceptor
    split <;> rfl
  · intro h
    have t : responseInterceptor storage error
        = { storage := (storage.removeItem "token").removeItem "user"
            effects := [.setLocationHref "/auth"], rejected := error } := by
      simp [responseInterceptor, h]
    rw [t]
    refine ⟨?_, getItem_removeItem _ _, ?_, rfl⟩
    · show ((storage.removeItem "token").removeItem "user").getItem "token" = none
      rw [getItem_removeItem_of_ne _ _ _ (by decide)]
      exact getItem_removeItem _ _
    · intro key hk hu
      show ((storage.removeItem "token").removeItem "user").getItem key = storage.getItem key
      rw [getItem_removeItem_of_ne _ _ _ hu, getItem_removeItem_of_ne _ _ _ hk]
  · intro h
    simp [responseInterceptor, h]

/-! ## Remaining properties of the gate -/

/-- C28: for every server-reported status that is none of `active`, `grace_period` and
`expired`, a missing status included, `canCreateNew` is false and no banner is shown, for
every end date and instant. -/
theorem C28_unknown_status_denied_without_banner (userInfo : Option UserInfo) (now : Int)
    (h₁ : subscriptionStatus userInfo ≠ some "active")
    (h₂ : subscriptionStatus userInfo ≠ some "grace_period")
    (h₃ : subscriptionStatus userInfo ≠ some "expired") :
    canCreateNew userInfo = false
    ∧ getSubscriptionBanner userInfo now = { show_ := false } := by
  constructor
  · simp [canCreateNew, h₁, h₂]
  · simp only [getSubscriptionBanner, h₁, h₂, h₃, false_and, if_false]

theorem C28_unknown_status_denied_without_banner_witness :
    subscriptionStatus none ≠ some "active"
    ∧ canCreateNew none = false
    ∧ getSubscriptionBanner none 0 = { show_ := false }
    ∧ canCreateNew (account "trial" (3 * DAY)) = false
    ∧ getSubscriptionBanner (account "trial" (3 * DAY)) 0 = { show_ := false } :=
  have h := C28_unknown_status_denied_without_banner none 0 (by decide) (by decide) (by decide)
  have h' := C28_unknown_status_denied_without_banner (account "trial" (3 * DAY)) 0
    (by decide) (by decide) (by decide)
  ⟨by decide, h.1, h.2, h'.1, h'.2⟩

/-- C29: the two copies of the day arithmetic agree: for every end date, null or not,
and every instant, `Dashboard.getDaysUntilExpiry` on an account with that end date and
`AdminPanel.getDaysRemaining` on that end date return the same number. -/
theorem C29_day_arithmetic_copies_agree (userInfo : Option UserInfo) (endDate : Option Int)
    (now : Int) :
    getDaysUntilExpiry userInfo now
        = getDaysRemaining (userInfo.bind fun u => u.subscription_end_date) now
    ∧ getDaysRemaining endDate now
        = getDaysUntilExpiry (some { subscription_end_date := endDate }) now := by
  constructor
  · unfold getDaysUntilExpiry getDaysRemaining
    cases (userInfo.bind fun u => u.subscription_end_date) <;> rfl
  · unfold getDaysUntilExpiry getDaysRemaining
    cases endDate <;> rfl

/-! ## The end-to-end scenario -/

/-- C25: the end-to-end scenario. With an end date 10 days after `now` and server status
`active`, the gate gives 10 days, `canCreateNew = true` and no banner. A start from the
initial state gives a recording session; three ticks, a stop and the stop event of the
recorder give a session that is not recording, with the artifact present and an elapsed
counter of 3. A successful upload navigates to the page of the new record; loading the
transcribed record with transcript `texto` and a successful structuring give status
`structured`, the structured notes, and the transcript `texto` unchanged. -/
theorem C25_end_to_end_scenario (now : Int) :
    subscriptionStatus (account "active" (now + 10 * DAY)) = some "active"
    ∧ getDaysUntilExpiry (account "active" (now + 10 * DAY)) now = 10
    ∧ canCreateNew (account "active" (now + 10 * DAY)) = true
    ∧ getSubscriptionBanner (account "active" (now + 10 * DAY)) now = { show_ := false }
    ∧ startControlOffered {} = true
    ∧ (runRecorder [.clickStart, .acquired (.ok micStream)]).state.isRecording = true
    ∧ scenarioTake.state.isRecording = false
    ∧ scenarioTake.state.audioBlob = some { parts := ["audio"], type := "audio/webm" }
    ∧ scenarioTake.state.recordingTime = 3
    ∧ liveTracks scenarioTake.state = 0
    ∧ (uploadAudio scenarioTake.state "06/11/2026" (.ok { id := "42" })).2
        = [ .postUpload { parts := ["audio"], type := "audio/webm" } "recording.webm"
              "Consulta 06/11/2026",
            .toastSuccess "Transcrição concluída!",
            .navigate "/transcription/42" ]
    ∧ (loadTranscription { id := "42" } (.ok transcribedRecord)).1 = detailPage
    ∧ transcribedRecord.status = some "transcribed"
    ∧ (structureNotes detailPage (.ok { structured_notes := some notesA })).1.transcription
        = some { id := some "42"
                 title := some "Consulta 06/11/2026"
                 status := some "structured"
                 transcript_text := some "texto"
                 structured_notes := some notesA
                 created_at := some "2026-11-06T10:00:00Z" } := by
  have hd : getDaysUntilExpiry (account "active" (now + 10 * DAY)) now = 10 := by
    simp only [getDaysUntilExpiry, account, Option.bind, mathCeilDiv, DAY]
    omega
  have hs : subscriptionStatus (account "active" (now + 10 * DAY)) = some "active" := rfl
  refine ⟨hs, hd, by simp [canCreateNew, hs], ?_, by decide, by decide, by decide, by decide,
    by decide, by decide, by decide, by decide, by decide, by decide⟩
  simp only [getSubscriptionBanner, hs, hd]
  simp

/-! ## Runs of the recorder -/

theorem runInvariant_initial : RunInvariant {} := by
  refine ⟨fun _ => rfl, fun h => ?_, fun _ _ => rfl⟩
  exact absurd h (by decide)

theorem overlapped_step (r : RecorderRun) (a : RecorderAction)
    (h : (r.step a).overlapped = false) : r.overlapped = false := by
  cases a with
  | acquired acquire =>
    by_cases hp : 0 < r.pendingStart
    · simp [RecorderRun.step, hp] at h
      exact h.1
    · simpa [RecorderRun.step, hp] using h
  | clickStart =>
    by_cases ho : startControlOffered r.state = true
    · simpa [RecorderRun.step, ho] using h
    · simpa [RecorderRun.step, ho] using h
  | tick id => simpa [RecorderRun.step] using h
  | data chunk => simpa [RecorderRun.step] using h
  | clickStop =>
    by_cases hrec : r.state.isRecording = true
    · simpa [RecorderRun.step, hrec] using h
    · simpa [RecorderRun.step, hrec] using h
  | stopEvent rid =>
    by_cases hp : rid ∈ r.pendingStop
    · simpa [RecorderRun.step, hp] using h
    · simpa [RecorderRun.step, hp] using h
  | clickReset =>
    by_cases hu : uploadControlOffered r.state = true
    · simpa [RecorderRun.step, hu] using h
    · simpa [RecorderRun.step, hu] using h
  | clickUpload today remote =>
    by_cases hu : uploadControlOffered r.state = true
    · simpa [RecorderRun.step, hu] using h
    · simpa [RecorderRun.step, hu] using h

theorem overlapped_foldl (actions : List RecorderAction) (r : RecorderRun)
    (h : (actions.foldl RecorderRun.step r).overlapped = false) : r.overlapped = false := by
  induction actions generalizing r with
  | nil => exact h
  | cons a rest ih => exact overlapped_step r a (ih (r.step a) h)

theorem runInvariant_step (r : RecorderRun) (a : RecorderAction) (h : RunInvariant r)
    (hno : (r.step a).overlapped = false) : RunInvariant (r.step a) := by
  obtain ⟨ha, hb, hc⟩ := h
  cases a with
  | clickStart =>
    by_cases ho : startControlOffered r.state = true
    · exact ⟨by simpa [RecorderRun.step, ho] using ha, by simpa [RecorderRun.step, ho] using hb,
        by simpa [RecorderRun.step, ho] using hc⟩
    · have hs : r.step .clickStart = r := by
        simp [RecorderRun.step, ho]
      rw [hs]; exact ⟨ha, hb, hc⟩
  | acquired acquire =>
    by_cases hp : 0 < r.pendingStart
    · cases acquire with
      | error e =>
        exact ⟨by simpa [RecorderRun.step, hp, startRecording] using ha,
          by simpa [RecorderRun.step, hp, startRecording] using hb,
          by simpa [RecorderRun.step, hp, startRecording] using hc⟩
      | ok stream =>
        have hrec : r.state.isRecording = false := by
          simp [RecorderRun.step, hp] at hno
          exact hno.2
        have hi := ha hrec
        have hst : (r.step (.acquired (.ok stream))).state
            = (startRecording r.state (.ok stream)).1 := by
          simp [RecorderRun.step, hp]
        refine ⟨?_, ?_, ?_⟩
        · intro hcontra
          rw [hst] at hcontra
          simp [startRecording] at hcontra
        · intro _
          rw [hst]
          simp [startRecording, setInterval, hi]
        · intro hcontra
          rw [hst] at hcontra
          simp [startRecording, startControlOffered] at hcontra
    · have hs : r.step (.acquired acquire) = r := by
        simp [RecorderRun.step, hp]
      rw [hs]; exact ⟨ha, hb, hc⟩
  | tick id =>
    by_cases hid : id ∈ r.state.intervals
    · have hrec : r.state.isRecording = true := by
        by_contra hn
        have := ha (by simpa using hn)
        rw [this] at hid
        simp at hid
      refine ⟨?_, ?_, ?_⟩
      · intro hcontra
        simp [RecorderRun.step, intervalTick, hid, hrec] at hcontra
      · intro _
        simpa [RecorderRun.step, intervalTick, hid] using hb hrec
      · intro hcontra
        simp [RecorderRun.step, intervalTick, hid, startControlOffered, hrec] at hcontra
    · have hs : r.step (.tick id) = r := by
        simp [RecorderRun.step, intervalTick, hid]
      rw [hs]; exact ⟨ha, hb, hc⟩
  | data chunk =>
    exact ⟨by simpa [RecorderRun.step, ondataavailable] using ha,
      by simpa [RecorderRun.step, ondataavailable] using hb,
      by simpa [RecorderRun.step, ondataavailable, startControlOffered] using hc⟩
  | clickStop =>
    by_cases hrec : r.state.isRecording = true
    · obtain ⟨href, t, ht, hall⟩ := hb hrec
      obtain ⟨rid, hrid⟩ := Option.ne_none_iff_exists'.mp href
      refine ⟨?_, ?_, ?_⟩
      · intro _
        simp only [RecorderRun.step, hrec, if_true, stopRecording, hrid, ht, clearInterval]
        rw [List.filter_eq_nil_iff]
        intro i hi
        simp [hall i hi]
      · intro hcontra
        simp [RecorderRun.step, hrec, stopRecording, hrid] at hcontra
      · intro _ hp
        simp [RecorderRun.step, hrec, hrid] at hp
    · have hs : r.step .clickStop = r := by
        simp [RecorderRun.step, hrec]
      rw [hs]; exact ⟨ha, hb, hc⟩
  | stopEvent rid =>
    by_cases hp : rid ∈ r.pendingStop
    · refine ⟨?_, ?_, ?_⟩
      · simpa [RecorderRun.step, hp, onstop] using ha
      · simpa [RecorderRun.step, hp, onstop] using hb
      · intro hcontra
        simp [RecorderRun.step, hp, onstop, startControlOffered] at hcontra
    · have hs : r.step (.stopEvent rid) = r := by
        simp [RecorderRun.step, hp]
      rw [hs]; exact ⟨ha, hb, hc⟩
  | clickReset =>
    by_cases hu : uploadControlOffered r.state = true
    · refine ⟨?_, ?_, ?_⟩
      · simpa [RecorderRun.step, hu, resetRecording] using ha
      · simpa [RecorderRun.step, hu, resetRecording] using hb
      · intro _ _
        simp [RecorderRun.step, hu, resetRecording]
    · have hs : r.step .clickReset = r := by
        simp [RecorderRun.step, hu]
      rw [hs]; exact ⟨ha, hb, hc⟩
  | clickUpload today remote =>
    by_cases hu : uploadControlOffered r.state = true
    · have hblob : r.state.audioBlob.isSome = true := by
        simp [uploadControlOffered] at hu; exact hu.1
      obtain ⟨b, hb'⟩ := Option.isSome_iff_exists.mp hblob
      have hst : (r.step (.clickUpload today remote)).state = { r.state with uploading := false } := by
        cases remote <;> simp [RecorderRun.step, hu, uploadAudio, hb']
      have hpd : (r.step (.clickUpload today remote)).pendingStop = r.pendingStop := by
        simp [RecorderRun.step, hu]
      refine ⟨?_, ?_, ?_⟩
      · rw [hst]; exact ha
      · rw [hst]; exact hb
      · rw [hst]
        intro hcontra
        simp [startControlOffered, hb'] at hcontra
    · have hs : r.step (.clickUpload today remote) = r := by
        simp [RecorderRun.step, hu]
      rw [hs]; exact ⟨ha, hb, hc⟩

theorem runInvariant_foldl (actions : List RecorderAction) (r : RecorderRun)
    (h : RunInvariant r) (hno : (actions.foldl RecorderRun.step r).overlapped = false) :
    RunInvariant (actions.foldl RecorderRun.step r) := by
  induction actions generalizing r with
  | nil => exact h
  | cons a rest ih =>
    exact ih (r.step a) (runInvariant_step r a h (overlapped_foldl rest (r.step a) hno)) hno

theorem counter_zero_when_start_offered_and_none_pending (actions : List RecorderAction)
    (hno : (runRecorder actions).overlapped = false)
    (ho : startControlOffered (runRecorder actions).state = true)
    (hp : (runRecorder actions).pendingStop = []) :
    (runRecorder actions).state.recordingTime = 0 :=
  (runInvariant_foldl actions {} runInvariant_initial hno).2.2 ho hp

/-- C27 (evaluation at the failing input): after a start, one tick and a click on stop,
before the stop event of the recorder is delivered, the session is not recording and holds
no artifact, so the start control is offered, and the elapsed counter reads 1. A start
issued there followed by one tick leaves the counter at 2. Once the stop event has been
delivered the start control is no longer offered. -/
theorem C27_start_offered_with_nonzero_counter :
    startControlOffered
        (runRecorder [.clickStart, .acquired (.ok micStream), .tick 1, .clickStop]).state = true
    ∧ (runRecorder [.clickStart, .acquired (.ok micStream), .tick 1, .clickStop]).state.recordingTime = 1
    ∧ (runRecorder [.clickStart, .acquired (.ok micStream), .tick 1, .clickStop]).pendingStop = [0]
    ∧ (runRecorder [.clickStart, .acquired (.ok micStream), .tick 1, .clickStop,
          .clickStart, .acquired (.ok micStream)]).state.isRecording = true
    ∧ (runRecorder [.clickStart, .acquired (.ok micStream), .tick 1, .clickStop,
          .clickStart, .acquired (.ok micStream), .tick 2]).state.recordingTime = 2
    ∧ startControlOffered
        (runRecorder [.clickStart, .acquired (.ok micStream), .tick 1, .clickStop,
          .stopEvent 0]).state = false := by
  decide

/-! ## The displayed time -/

theorem toDigitsCore_acc (b f n : Nat) (ds : List Char) :
    Nat.toDigitsCore b f n ds = Nat.toDigitsCore b f n [] ++ ds := by
  induction f generalizing n ds with
  | zero => simp [Nat.toDigitsCore]
  | succ f ih =>
    simp only [Nat.toDigitsCore]
    split
    · simp
    · rw [ih (n / b) (Nat.digitChar (n % b) :: ds), ih (n / b) [Nat.digitChar (n % b)]]
      simp

theorem toDigitsCore_fuel (n : Nat) : ∀ f, n < f →
    Nat.toDigitsCore 10 f n [] = Nat.toDigitsCore 10 (n + 1) n [] := by
  induction n using Nat.strong_induction_on with
  | _ n ih =>
    intro f hf
    obtain ⟨f', rfl⟩ : ∃ f', f = f' + 1 := ⟨f - 1, by omega⟩
    simp only [Nat.toDigitsCore]
    by_cases h0 : n / 10 = 0
    · simp [h0]
    · simp only [h0, if_false]
      have hlt : n / 10 < n := by omega
      rw [toDigitsCore_acc 10 f', toDigitsCore_acc 10 n, ih (n / 10) hlt f' (by omega),
        ih (n / 10) hlt n hlt]

theorem toDigitsCore_succ (f n : Nat) :
    Nat.toDigitsCore 10 (f + 1) n []
      = if n / 10 = 0 then [Nat.digitChar (n % 10)]
        else Nat.toDigitsCore 10 f (n / 10) [] ++ [Nat.digitChar (n % 10)] := by
  simp only [Nat.toDigitsCore]
  split
  · rfl
  · exact toDigitsCore_acc 10 f (n / 10) _

theorem toDigits_rec (n : Nat) :
    Nat.toDigits 10 n
      = if n < 10 then [Nat.digitChar n]
        else Nat.toDigits 10 (n / 10) ++ [Nat.digitChar (n % 10)] := by
  show Nat.toDigitsCore 10 (n + 1) n [] = if n < 10 then [Nat.digitChar n]
        else Nat.toDigitsCore 10 (n / 10 + 1) (n / 10) [] ++ [Nat.digitChar (n % 10)]
  rw [toDigitsCore_succ]
  by_cases h : n < 10
  · have h0 : n / 10 = 0 := by omega
    have hm : n % 10 = n := by omega
    simp [h, h0, hm]
  · have h0 : ¬ n / 10 = 0 := by omega
    simp only [h, h0, if_false]
    rw [toDigitsCore_fuel (n / 10) n (by omega)]

theorem toString_data (n : Nat) : (toString n).data = Nat.toDigits 10 n := rfl


theorem digitChar_value (k : Nat) (h : k < 10) :
    (Nat.digitChar k).toNat - '0'.toNat = k := by
  interval_cases k <;> rfl

theorem digitChar_ne_colon (k : Nat) (h : k < 10) : Nat.digitChar k ≠ ':' := by
  interval_cases k <;> decide

theorem toDigits_ne_colon (n : Nat) : ∀ c ∈ Nat.toDigits 10 n, c ≠ ':' := by
  induction n using Nat.strong_induction_on with
  | _ n ih =>
    intro c hc
    rw [toDigits_rec] at hc
    by_cases h : n < 10
    · simp only [h, if_true, List.mem_singleton] at hc
      subst hc
      exact digitChar_ne_colon n h
    · simp only [h, if_false, List.mem_append, List.mem_singleton] at hc
      rcases hc with hc | hc
      · exact ih (n / 10) (by omega) c hc
      · subst hc
        exact digitChar_ne_colon _ (by omega)

theorem foldl_toDigits (n : Nat) :
    (Nat.toDigits 10 n).foldl (fun acc c => 10 * acc + (c.toNat - '0'.toNat)) 0 = n := by
  induction n using Nat.strong_induction_on with
  | _ n ih =>
    rw [toDigits_rec]
    by_cases h : n < 10
    · simp only [h, if_true, List.foldl]
      rw [digitChar_value n h]
      omega
    · simp only [h, if_false, List.foldl_append, List.foldl]
      rw [ih (n / 10) (by omega), digitChar_value _ (by omega)]
      omega

theorem toDigits_length_lt_ten (n : Nat) (h : n < 10) : (Nat.toDigits 10 n).length = 1 := by
  rw [toDigits_rec]; simp [h]

theorem toDigits_length_lt_hundred (n : Nat) (h₁ : 10 ≤ n) (h₂ : n < 100) :
    (Nat.toDigits 10 n).length = 2 := by
  rw [toDigits_rec]
  have : ¬ n < 10 := by omega
  simp [this, toDigits_length_lt_ten (n / 10) (by omega)]

theorem toDigits_length_pos (n : Nat) : 1 ≤ (Nat.toDigits 10 n).length := by
  rw [toDigits_rec]
  split <;> simp

theorem toDigits_length_ge_hundred (n : Nat) (h : 100 ≤ n) :
    3 ≤ (Nat.toDigits 10 n).length := by
  rw [toDigits_rec]
  have h₁ : ¬ n < 10 := by omega
  simp only [h₁, if_false, List.length_append, List.length_singleton]
  rw [toDigits_rec]
  have h₂ : ¬ n / 10 < 10 := by omega
  simp only [h₂, if_false, List.length_append, List.length_singleton]
  have := toDigits_length_pos (n / 10 / 10)
  omega


theorem padStart_data (str : String) (n : Nat) (c : Char) :
    (padStart str n c).data = List.replicate (n - str.length) c ++ str.data := by
  simp [padStart]

theorem padStart_toString_length (n : Nat) :
    (padStart (toString n) 2 '0').length = max 2 (Nat.toDigits 10 n).length := by
  have hl : (toString n).length = (Nat.toDigits 10 n).length := rfl
  have hd : (padStart (toString n) 2 '0').length = (padStart (toString n) 2 '0').data.length := rfl
  rw [hd, padStart_data, List.length_append, List.length_replicate, hl]
  have hp := toDigits_length_pos n
  show 2 - (Nat.toDigits 10 n).length + (Nat.toDigits 10 n).length = _
  omega

theorem readDecimal_padStart (n : Nat) : readDecimal (padStart (toString n) 2 '0') = n := by
  unfold readDecimal
  rw [padStart_data, List.foldl_append]
  have hz : ∀ k : Nat, (List.replicate k '0').foldl
      (fun acc c => 10 * acc + (c.toNat - '0'.toNat)) 0 = 0 := by
    intro k
    induction k with
    | zero => rfl
    | succ k ih => simpa [List.replicate_succ] using ih
  rw [hz]
  exact foldl_toDigits n

theorem padStart_ne_colon (n : Nat) : ∀ c ∈ (padStart (toString n) 2 '0').data, c ≠ ':' := by
  intro c hc
  rw [padStart_data, List.mem_append] at hc
  rcases hc with hc | hc
  · rw [List.mem_replicate] at hc
    rw [hc.2]
    decide
  · exact toDigits_ne_colon n c hc

theorem takeWhile_ne_append (l r : List Char) (h : ∀ c ∈ l, c ≠ ':') :
    (l ++ ':' :: r).takeWhile (fun c => c ≠ ':') = l := by
  induction l with
  | nil => simp
  | cons a l ih =>
    have ha : a ≠ ':' := h a (List.mem_cons_self a l)
    simpa [List.takeWhile, ha] using ih fun c hc => h c (List.mem_cons_of_mem a hc)

theorem dropWhile_ne_append (l r : List Char) (h : ∀ c ∈ l, c ≠ ':') :
    (l ++ ':' :: r).dropWhile (fun c => c ≠ ':') = ':' :: r := by
  induction l with
  | nil => simp
  | cons a l ih =>
    have ha : a ≠ ':' := h a (List.mem_cons_self a l)
    simpa [List.dropWhile, ha] using ih fun c hc => h c (List.mem_cons_of_mem a hc)

theorem formatTime_data (s : Nat) :
    (formatTime s).data
      = (padStart (toString (s / 60)) 2 '0').data
        ++ ':' :: (padStart (toString (s % 60)) 2 '0').data := by
  simp [formatTime]

/-- C30: for every number of seconds `s`, `formatTime s` is the decimal of `s / 60`
padded on the left with zeros to at least two characters, a colon, and the decimal of
`s % 60` padded to exactly two characters; the two parts read back as `s / 60` and
`s % 60`, and the whole string reads back as `s` seconds; and the string has five
characters exactly when `s < 6000`. -/
theorem C30_formatTime (s : Nat) :
    formatTime s = padStart (toString (s / 60)) 2 '0' ++ ":" ++ padStart (toString (s % 60)) 2 '0'
    ∧ 2 ≤ (padStart (toString (s / 60)) 2 '0').length
    ∧ (padStart (toString (s % 60)) 2 '0').length = 2
    ∧ readDecimal (padStart (toString (s / 60)) 2 '0') = s / 60
    ∧ readDecimal (padStart (toString (s % 60)) 2 '0') = s % 60
    ∧ readTime (formatTime s) = s
    ∧ ((formatTime s).length = 5 ↔ s < 6000) := by
  refine ⟨rfl, ?_, ?_, readDecimal_padStart _, readDecimal_padStart _, ?_, ?_⟩
  · rw [padStart_toString_length]
    exact le_max_left _ _
  · rw [padStart_toString_length]
    by_cases h : s % 60 < 10
    · rw [toDigits_length_lt_ten _ h]; rfl
    · rw [toDigits_length_lt_hundred _ (by omega) (by omega)]; rfl
  · unfold readTime
    rw [formatTime_data, takeWhile_ne_append _ _ (padStart_ne_colon _),
      dropWhile_ne_append _ _ (padStart_ne_colon _)]
    simp only [List.drop_succ_cons, List.drop_zero]
    rw [readDecimal_padStart, readDecimal_padStart]
    omega
  · have hl : (formatTime s).length
        = (padStart (toString (s / 60)) 2 '0').length + 1
          + (padStart (toString (s % 60)) 2 '0').length := by
      have e₀ : (formatTime s).length = (formatTime s).data.length := rfl
      have e₁ : (padStart (toString (s / 60)) 2 '0').length
          = (padStart (toString (s / 60)) 2 '0').data.length := rfl
      have e₂ : (padStart (toString (s % 60)) 2 '0').length
          = (padStart (toString (s % 60)) 2 '0').data.length := rfl
      rw [e₀, e₁, e₂, formatTime_data, List.length_append, List.length_cons]
      omega
    have hs : (padStart (toString (s % 60)) 2 '0').length = 2 := by
      rw [padStart_toString_length]
      by_cases h : s % 60 < 10
      · rw [toDigits_length_lt_ten _ h]; rfl
      · rw [toDigits_length_lt_hundred _ (by omega) (by omega)]; rfl
    rw [hl, hs, padStart_toString_length]
    constructor
    · intro h5
      by_contra hge
      have := toDigits_length_ge_hundred (s / 60) (by omega)
      have hm : 3 ≤ max 2 (Nat.toDigits 10 (s / 60)).length := le_trans this (le_max_right _ _)
      omega
    · intro hlt
      have hm : s / 60 < 100 := by omega
      by_cases h : s / 60 < 10
      · rw [toDigits_length_lt_ten _ h]; rfl
      · rw [toDigits_length_lt_hundred _ (by omega) hm]; rfl


end AudioMedic
